import Mathlib

/-!
# Verification of the relevance scoring and AI reranking engine

This file gives a shallow embedding, over exact rationals, of the relevance
scoring engine (`src/lib/scoring.ts`), its journal/profile reference
predicates (`src/lib/journals.ts`, `src/lib/profile-options.ts`) and the AI
batch reranker (`src/lib/ai-reranker.ts`), together with theorems settling
the specification claims about them.

Modelling conventions:
* JavaScript `number` arithmetic is modelled by `ℚ` (exact rationals);
  `Math.round(x*10)/10` becomes `round1`, `Math.max(1, Math.min(10, x))`
  becomes `max 1 (min 10 x)`.
* `String.prototype.includes` becomes `jsIncludes` (substring containment on
  the character list); `toLowerCase` is ASCII lowercasing; the `/\s+/`
  whitespace class is space, tab, CR and LF.
* The network call of the reranker (`callGemini` on the prompt for one batch)
  is abstracted by an oracle `Nat → Except String (List (Option JsonItem))`:
  `.error msg` is a thrown error with message `msg`, `.ok items` is a
  response whose text JSON-parses to the given array (a `none` item is a
  non-object array entry; an unparseable response is equivalent to `.ok []`).
  The score parser is modelled at two levels: `parseScoresJS` works on
  arbitrary JSON field values (`JVal`: finite numbers, strings, booleans,
  arrays/objects) with JavaScript coercion — a value with no numeric
  meaning makes the arithmetic produce NaN, modelled as `Option.none` —
  while the batch pipeline's `parseScores` is its restriction to responses
  whose fields are numeric or absent (`parseScoresJS_agrees_on_numeric`
  proves the two agree there). String-to-number coercion implements the
  decimal-numeral grammar; hexadecimal/`Infinity` string forms and the
  array-to-primitive corner coerce to NaN in the model, which no theorem
  depends on.
* `Array.prototype.sort` (stable since ES2019) is modelled by a stable
  insertion sort on the descending comparator used in the source.
-/

namespace Econvery

/-! ## JavaScript numeric helpers -/

/-- `Math.round` of JavaScript: round half toward positive infinity. -/
def jsRound (x : ℚ) : ℤ := Int.floor (x + 1/2)

/-- `Math.round(x * 10) / 10`: round to one decimal. -/
def round1 (x : ℚ) : ℚ := ((jsRound (x * 10) : ℤ) : ℚ) / 10

/-- `Math.round(x * 100) / 100`: round to two decimals. -/
def round2 (x : ℚ) : ℚ := ((jsRound (x * 100) : ℤ) : ℚ) / 100

/-- `Math.round(x * 1000) / 1000`: round to three decimals. -/
def round3 (x : ℚ) : ℚ := ((jsRound (x * 1000) : ℤ) : ℚ) / 1000

/-- `Math.max(1, Math.min(10, x))`, the clamp used for final scores. -/
def clamp110 (x : ℚ) : ℚ := max 1 (min 10 x)

/-- A rational is representable with one decimal of precision. -/
def OneDecimal (x : ℚ) : Prop := ∃ k : ℤ, x = (k : ℚ) / 10

/-! ## Text processing (`normalizeText`, `countKeywordMatches`) -/

/-- Check whether the second list is a prefix of the first. -/
def startsWithL : List Char → List Char → Bool
  | _, [] => true
  | [], _ :: _ => false
  | c :: cs, p :: ps => c == p && startsWithL cs ps

/-- Check whether `p` occurs as a contiguous sublist of `t`. -/
def containsSubL (t p : List Char) : Bool :=
  startsWithL t p ||
    (match t with
     | [] => false
     | _ :: ts => containsSubL ts p)

/-- JavaScript `t.includes(p)`: substring containment. -/
def jsIncludes (t p : String) : Bool := containsSubL t.toList p.toList

/-- Hyphen, en-dash and em-dash become a space (`.replace(/[-–—]/g, " ")`). -/
def dashToSpace (c : Char) : Char :=
  if c = '-' ∨ c = '–' ∨ c = '—' then ' ' else c

/-- The whitespace class of `/\s+/` restricted to the characters occurring
in this data: space, tab, LF, CR. -/
def isWsChar (c : Char) : Bool := c = ' ' || c = '\t' || c = '\n' || c = '\r'

/-- Collapse every run of whitespace to a single space
(`.replace(/\s+/g, " ")`); the flag records whether the previous character
was whitespace. -/
def collapseWs : List Char → Bool → List Char
  | [], _ => []
  | c :: cs, prevWs =>
    if isWsChar c then
      if prevWs then collapseWs cs true else ' ' :: collapseWs cs true
    else c :: collapseWs cs false

/-- JavaScript `trim`: drop leading and trailing whitespace. -/
def trimWs (l : List Char) : List Char :=
  ((l.dropWhile isWsChar).reverse.dropWhile isWsChar).reverse

/-- `normalizeText` from `src/lib/scoring.ts`: lowercase, dashes to spaces,
whitespace runs collapsed, trimmed; empty input gives the empty string. -/
def normalizeText (s : String) : String :=
  if s = "" then ""
  else String.mk (trimWs (collapseWs (s.toList.map (fun c => dashToSpace c.toLower)) false))

/-- ASCII lowercasing of a whole string (JavaScript `toLowerCase` on the
ASCII texts this engine handles). -/
def toLowerStr (s : String) : String := String.mk (s.toList.map Char.toLower)

/-! ## Data model (`src/lib/types.ts`) -/

/-- Journal field tags. -/
inductive JournalField where
  | economics
  | polisci
  | psychology
  | sociology
  | management
  | working_papers
deriving DecidableEq, BEq

/-- The `approach_preference` values of a profile. -/
inductive ApproachPreference where
  | quantitative
  | qualitative
  | both
  | no_preference
deriving DecidableEq, BEq

/-- The `experience_type` values of a profile. -/
inductive ExperienceType where
  | specialist
  | generalist
  | explorer
deriving DecidableEq, BEq

/-- An OpenAlex classifier tag with its confidence. -/
structure Concept where
  name : String
  score : ℚ
deriving DecidableEq

/-- A paper record as consumed by the scorer. -/
structure Paper where
  id : String
  title : String
  authors : List String
  abstract : String
  journal : String
  journal_tier : ℕ
  journal_field : Option JournalField
  publication_date : String
  concepts : List Concept
  cited_by_count : ℕ
  is_open_access : Bool
deriving DecidableEq

/-- A user profile as consumed by the scorer and the reranker.
`exploration_level` is optional because the reranker reads it with `?? 0.5`. -/
structure UserProfile where
  name : String
  academic_level : String
  primary_field : String
  interests : List String
  methods : List String
  region : String
  approach_preference : ApproachPreference
  experience_type : ExperienceType
  include_adjacent_fields : Bool
  selected_adjacent_fields : List JournalField
  exploration_level : Option ℚ
deriving DecidableEq

/-- A keyword dictionary entry: canonical term, synonyms, weight. -/
structure KeywordEntry where
  canonical : String
  synonyms : List String
  weight : ℚ
deriving DecidableEq

/-- The scoring result for one paper (the record returned by `scorePaper`). -/
structure MatchScore where
  total : ℚ
  baseline_score : ℚ
  concept_score : ℚ
  keyword_score : ℚ
  method_score : ℚ
  quality_score : ℚ
  field_relevance_score : ℚ
  matched_interests : List String
  matched_methods : List String
  matched_topics : List String
  explanation : String
  is_adjacent_field : Bool
deriving DecidableEq

/-- A paper together with its scoring output and optional AI fields. -/
structure ScoredPaper extends Paper where
  relevance_score : ℚ
  matched_interests : List String
  matched_methods : List String
  matched_topics : List String
  match_explanation : String
  is_adjacent_field : Bool
  ai_score : Option ℚ
  ai_discovery : Option ℚ
  original_score : Option ℚ
  ai_explanation : Option String
deriving DecidableEq

/-! ## Reference predicates (`journals.ts`, `profile-options.ts`) -/

/-- `isAdjacentField` from `src/lib/journals.ts`. -/
def isAdjacentField (f : JournalField) : Bool :=
  f == .psychology || f == .sociology || f == .management

/-- `isGeneralistField` from `src/lib/profile-options.ts`. -/
def isGeneralistField (field : String) : Bool :=
  field == "General Interest (Show me everything)" ||
    field == "Interdisciplinary / Multiple Fields"

/-- `isGeneralistLevel` from `src/lib/profile-options.ts`. -/
def isGeneralistLevel (level : String) : Bool :=
  ["Curious Learner", "STEM Professional", "Business Professional",
    "Entrepreneur"].contains level

/-! ## Keyword and concept dictionaries (`src/lib/scoring.ts`) -/

/-- Lookup in a string-keyed table (`TABLE[key]` on a `Record`). -/
def lookupTable {α : Type} (t : List (String × α)) (k : String) : Option α :=
  (t.find? (fun p => p.1 == k)).map (fun p => p.2)
/-- `INTEREST_TO_CONCEPTS` table from `src/lib/scoring.ts`. -/
def INTEREST_TO_CONCEPTS : List (String × List String) := [
  ("Causal Inference", ["causal inference", "causality", "treatment effect", "instrumental variable", "regression discontinuity", "natural experiment", "randomized experiment", "econometrics", "identification", "endogeneity"]),
  ("Machine Learning / AI", ["machine learning", "artificial intelligence", "deep learning", "neural network", "prediction", "statistical learning", "data science", "algorithm", "supervised learning", "unsupervised learning"]),
  ("Experimental Methods", ["randomized controlled trial", "field experiment", "randomized experiment", "experimental economics", "rct", "experiment", "lab experiment"]),
  ("Formal Theory / Game Theory", ["game theory", "mechanism design", "auction", "matching", "bargaining", "strategic interaction", "equilibrium", "nash", "incentive", "contract theory"]),
  ("Inequality", ["inequality", "income distribution", "wealth distribution", "economic inequality", "income inequality", "social mobility", "poverty", "redistribution", "gini"]),
  ("Education", ["education economics", "education", "human capital", "school", "student achievement", "higher education", "returns to education", "teacher", "college", "learning"]),
  ("Housing", ["housing", "real estate", "housing market", "rent", "mortgage", "urban economics", "housing policy", "homeownership", "zoning"]),
  ("Health", ["health economics", "healthcare", "public health", "mortality", "health insurance", "epidemiology", "medical", "hospital", "disease"]),
  ("Labor Markets", ["labor market", "labor economics", "employment", "unemployment", "wage", "job search", "labor supply", "labor demand", "minimum wage"]),
  ("Poverty and Welfare", ["poverty", "welfare", "social protection", "transfer program", "food stamps", "social assistance", "safety net", "aid"]),
  ("Taxation", ["taxation", "tax policy", "income tax", "tax evasion", "optimal taxation", "tax incidence", "corporate tax", "public finance"]),
  ("Trade and Globalization", ["international trade", "trade policy", "globalization", "tariff", "trade agreement", "export", "import", "comparative advantage"]),
  ("Monetary Policy", ["monetary policy", "central bank", "interest rate", "inflation", "money supply", "federal reserve", "monetary economics", "banking"]),
  ("Fiscal Policy", ["fiscal policy", "government spending", "taxation", "public debt", "budget deficit", "stimulus", "public finance"]),
  ("Innovation and Technology", ["innovation", "technological change", "patent", "r&d", "entrepreneurship", "productivity", "technology", "startup"]),
  ("Development", ["development economics", "economic development", "poverty", "developing country", "foreign aid", "microfinance", "growth"]),
  ("Climate and Energy", ["climate change", "climate economics", "environmental economics", "energy economics", "carbon", "renewable energy", "emissions", "pollution", "sustainability"]),
  ("Agriculture and Food", ["agriculture", "food security", "farm", "crop", "rural", "agricultural economics", "food policy", "land"]),
  ("Finance and Banking", ["finance", "banking", "financial markets", "credit", "investment", "asset pricing", "stock market", "financial crisis"]),
  ("Entrepreneurship", ["entrepreneur", "startup", "small business", "venture capital", "firm formation", "business creation"]),
  ("Elections and Voting", ["election", "voting", "political economy", "voter turnout", "electoral", "democracy", "political participation", "campaign"]),
  ("Democracy and Democratization", ["democracy", "democratization", "democratic transition", "regime", "political liberalization", "civil liberties", "political freedom"]),
  ("Conflict and Security", ["conflict", "war", "civil war", "political violence", "security", "peace", "military", "international relations"]),
  ("International Cooperation", ["international cooperation", "international organization", "treaty", "multilateral", "foreign policy", "diplomacy", "alliance"]),
  ("Political Institutions", ["institution", "constitution", "legislature", "executive", "judiciary", "bureaucracy", "federalism", "decentralization"]),
  ("Public Opinion", ["public opinion", "survey", "polling", "attitude", "belief", "political attitudes", "opinion formation"]),
  ("Political Behavior", ["political behavior", "political participation", "protest", "social movement", "collective action", "civic engagement"]),
  ("Accountability and Transparency", ["accountability", "transparency", "oversight", "audit", "monitoring", "information disclosure", "freedom of information"]),
  ("Corruption", ["corruption", "bribery", "rent-seeking", "clientelism", "patronage", "anti-corruption", "integrity"]),
  ("Rule of Law", ["rule of law", "legal system", "court", "judicial", "law enforcement", "property rights", "contract enforcement"]),
  ("State Capacity", ["state capacity", "state building", "governance", "public administration", "bureaucratic capacity", "fiscal capacity", "institutional capacity"]),
  ("Authoritarianism", ["authoritarianism", "autocracy", "dictatorship", "authoritarian", "repression", "censorship", "political control"]),
  ("Gender", ["gender", "gender economics", "gender gap", "discrimination", "female labor", "wage gap", "women", "family economics"]),
  ("Race and Ethnicity", ["race", "ethnicity", "racial", "ethnic", "discrimination", "minority", "segregation", "diversity"]),
  ("Immigration", ["immigration", "migration", "immigrant", "refugee", "labor migration", "international migration", "asylum"]),
  ("Crime and Justice", ["crime", "criminal justice", "law enforcement", "prison", "incarceration", "policing", "recidivism", "law and economics"]),
  ("Social Mobility", ["social mobility", "intergenerational mobility", "economic mobility", "income mobility", "opportunity", "inequality"]),
  ("Social Networks", ["social network", "network", "peer effect", "social connection", "network analysis", "social capital", "ties"]),
  ("Media and Information", ["media", "news", "journalism", "information", "press", "media effects", "information transmission", "communication"]),
  ("Social Media and Digital Platforms", ["social media", "platform", "facebook", "twitter", "online", "digital", "internet", "technology platform"]),
  ("Misinformation and Fake News", ["misinformation", "disinformation", "fake news", "fact-checking", "media literacy", "propaganda", "rumor"]),
  ("Trust and Social Capital", ["trust", "social capital", "social cohesion", "cooperation", "civic participation", "community"]),
  ("Norms and Culture", ["norm", "culture", "social norm", "cultural", "tradition", "values", "beliefs", "customs"]),
  ("Religion", ["religion", "religious", "church", "faith", "islam", "christianity", "secularization", "spirituality"]),
  ("Organizations and Firms", ["organization", "firm", "company", "corporate", "business", "management", "organizational behavior"]),
  ("Corporate Governance", ["corporate governance", "board", "shareholder", "executive compensation", "CEO", "ownership", "agency"]),
  ("Leadership", ["leadership", "leader", "manager", "management", "executive", "decision-making", "authority"]),
  ("Decision Making", ["decision making", "choice", "judgment", "cognitive", "heuristic", "bounded rationality"]),
  ("Behavioral Biases", ["bias", "behavioral", "cognitive bias", "framing", "anchoring", "overconfidence", "prospect theory"]),
  ("Nudges and Choice Architecture", ["nudge", "choice architecture", "behavioral intervention", "default", "libertarian paternalism", "behavioral policy"]),
  ("Risk and Uncertainty", ["risk", "uncertainty", "risk aversion", "insurance", "probability", "expected utility"]),
  ("Prosocial Behavior", ["prosocial", "altruism", "cooperation", "charitable", "donation", "volunteering", "helping"])
]

/-- `FIELD_TO_CONCEPTS` table from `src/lib/scoring.ts`. -/
def FIELD_TO_CONCEPTS : List (String × List String) := [
  ("General Interest (Show me everything)", []),
  ("Interdisciplinary / Multiple Fields", []),
  ("Microeconomics", ["microeconomics", "consumer behavior", "market", "game theory", "industrial organization", "welfare economics"]),
  ("Macroeconomics", ["macroeconomics", "economic growth", "business cycle", "monetary economics", "gdp", "inflation"]),
  ("Econometrics", ["econometrics", "statistical method", "causal inference", "estimation", "regression"]),
  ("Labor Economics", ["labor economics", "wage", "employment", "human capital", "labor market", "unemployment"]),
  ("Public Economics", ["public economics", "taxation", "public finance", "government", "welfare", "redistribution"]),
  ("International Economics", ["international economics", "international trade", "exchange rate", "globalization", "tariff"]),
  ("Development Economics", ["development economics", "poverty", "economic development", "foreign aid", "microfinance"]),
  ("Financial Economics", ["finance", "financial economics", "asset pricing", "banking", "stock market", "credit"]),
  ("Industrial Organization", ["industrial organization", "competition", "antitrust", "market structure", "monopoly"]),
  ("Behavioral Economics", ["behavioral economics", "psychology", "decision making", "bounded rationality", "bias"]),
  ("Health Economics", ["health economics", "healthcare", "health insurance", "medical", "mortality"]),
  ("Environmental Economics", ["environmental economics", "climate", "pollution", "energy", "carbon"]),
  ("Urban Economics", ["urban economics", "housing", "city", "real estate", "agglomeration", "rent"]),
  ("Economic History", ["economic history", "history", "historical economics", "long run"]),
  ("Agricultural Economics", ["agricultural economics", "agriculture", "farm", "food", "rural"]),
  ("Political Economy", ["political economy", "institution", "democracy", "political economics", "voting"]),
  ("Comparative Politics", ["comparative politics", "regime", "democracy", "political system", "government"]),
  ("International Relations", ["international relations", "foreign policy", "diplomacy", "conflict", "war"]),
  ("American Politics", ["american politics", "congress", "election", "united states", "president"]),
  ("Public Policy", ["public policy", "policy analysis", "regulation", "government", "reform"]),
  ("Political Methodology", ["political methodology", "quantitative methods", "causal inference", "measurement"]),
  ("Political Theory", ["political theory", "normative", "justice", "philosophy", "political philosophy"]),
  ("Security Studies", ["security", "defense", "military", "war", "conflict", "terrorism"]),
  ("Psychology (Behavioral/Social)", ["psychology", "behavior", "cognition", "social psychology", "decision making"]),
  ("Sociology", ["sociology", "social", "society", "community", "social structure"]),
  ("Management / Organization Studies", ["management", "organization", "firm", "strategy", "leadership"]),
  ("Public Administration", ["public administration", "bureaucracy", "government", "civil service"]),
  ("Law and Economics", ["law and economics", "legal", "court", "regulation", "property rights"]),
  ("Demography", ["demography", "population", "fertility", "mortality", "migration"])
]

/-- `METHOD_KEYWORDS` table from `src/lib/scoring.ts`. -/
def METHOD_KEYWORDS : List (String × KeywordEntry) := [
  ("Difference-in-Differences", ⟨"difference-in-differences", ["diff-in-diff", "did ", "difference in differences", "parallel trends", "two-way fixed effects", "twfe", "staggered", "event study", "pretrend", "treated group", "control group", "treatment group", "triple difference"], (1.0 : ℚ)⟩),
  ("Regression Discontinuity", ⟨"regression discontinuity", ["rdd", "rd design", "discontinuity", "sharp rd", "fuzzy rd", "running variable", "forcing variable", "cutoff", "threshold", "bandwidth", "local polynomial"], (1.0 : ℚ)⟩),
  ("Instrumental Variables", ⟨"instrumental variable", ["iv ", " iv,", "instrument", "2sls", "two-stage", "tsls", "exclusion restriction", "first stage", "first-stage", "weak instrument", "late", "local average treatment effect", "complier"], (1.0 : ℚ)⟩),
  ("Randomized Experiments (RCTs)", ⟨"randomized", ["rct", "randomized controlled trial", "randomized trial", "randomised", "random assignment", "randomization", "field experiment", "lab experiment", "experimental", "treatment group", "control group", "intent to treat", "intention to treat", "randomly assigned", "random sample"], (1.0 : ℚ)⟩),
  ("Synthetic Control", ⟨"synthetic control", ["synthetic control method", "scm", "donor pool", "synthetic counterfactual", "abadie", "comparative case study", "synth"], (1.0 : ℚ)⟩),
  ("Bunching Estimation", ⟨"bunching", ["bunching estimation", "bunching design", "kink", "notch", "excess mass", "missing mass"], (1.0 : ℚ)⟩),
  ("Event Studies", ⟨"event study", ["event-study", "event window", "abnormal return", "announcement effect", "dynamic effects", "leads and lags"], (0.9 : ℚ)⟩),
  ("Structural Models", ⟨"structural model", ["structural estimation", "structural approach", "discrete choice model", "blp", "demand estimation", "supply estimation", "dynamic model", "counterfactual simulation", "estimated model", "model estimation"], (1.0 : ℚ)⟩),
  ("Game Theoretic Models", ⟨"game theory", ["game theoretic", "strategic", "equilibrium", "nash equilibrium", "subgame perfect", "mechanism design", "signaling", "bargaining model", "auction theory", "formal model", "formal theory"], (1.0 : ℚ)⟩),
  ("Mechanism Design", ⟨"mechanism design", ["market design", "auction design", "matching mechanism", "allocation", "incentive compatible", "revelation principle"], (1.0 : ℚ)⟩),
  ("Machine Learning Methods", ⟨"machine learning", ["lasso", "ridge regression", "elastic net", "random forest", "gradient boosting", "neural network", "deep learning", "causal forest", "double ml", "cross-validation", "regularization", "prediction model", "xgboost", "boosted", "supervised learning"], (0.95 : ℚ)⟩),
  ("Panel Data Methods", ⟨"panel data", ["fixed effects", "fixed effect", "random effects", "within estimator", "longitudinal", "panel regression", "individual fixed effects", "time fixed effects", "entity fixed effects", "year fixed effects"], (0.85 : ℚ)⟩),
  ("Time Series Analysis", ⟨"time series", ["var ", "vector autoregression", "arima", "cointegration", "granger causality", "impulse response", "forecast", "autoregressive"], (0.85 : ℚ)⟩),
  ("Bayesian Methods", ⟨"bayesian", ["bayesian estimation", "mcmc", "posterior", "prior", "bayes", "markov chain monte carlo", "gibbs sampling", "bayesian inference"], (0.9 : ℚ)⟩),
  ("Network Analysis", ⟨"network analysis", ["social network analysis", "network", "centrality", "clustering coefficient", "network structure", "graph theory", "node", "edge", "community detection"], (0.95 : ℚ)⟩),
  ("Text Analysis / NLP", ⟨"text analysis", ["nlp", "natural language processing", "text mining", "topic model", "sentiment analysis", "word embedding", "text classification", "lda", "word2vec", "corpus", "textual analysis"], (0.95 : ℚ)⟩),
  ("Spatial Analysis / GIS", ⟨"spatial analysis", ["gis", "geographic", "spatial econometrics", "geospatial", "location", "spatial regression", "mapping"], (0.9 : ℚ)⟩),
  ("Survey Experiments", ⟨"survey experiment", ["conjoint", "vignette", "factorial design", "list experiment", "endorsement experiment", "survey-embedded experiment"], (0.95 : ℚ)⟩),
  ("Case Studies", ⟨"case study", ["case-study", "single case", "comparative case", "within-case", "case selection", "qualitative case", "in-depth case"], (0.9 : ℚ)⟩),
  ("Comparative Historical Analysis", ⟨"comparative historical", ["historical analysis", "historical comparison", "comparative history", "historical institutionalism", "path dependence", "critical juncture", "historical sociology"], (0.95 : ℚ)⟩),
  ("Process Tracing", ⟨"process tracing", ["process-tracing", "causal mechanism", "causal process observation", "mechanistic evidence", "within-case analysis"], (1.0 : ℚ)⟩),
  ("Interviews", ⟨"interview", ["semi-structured interview", "in-depth interview", "elite interview", "qualitative interview", "respondent", "interviewee"], (0.85 : ℚ)⟩),
  ("Ethnography", ⟨"ethnograph", ["ethnographic", "participant observation", "fieldwork", "field research", "immersion", "observational study"], (0.95 : ℚ)⟩),
  ("Focus Groups", ⟨"focus group", ["group interview", "group discussion", "deliberative"], (0.85 : ℚ)⟩),
  ("Content Analysis", ⟨"content analysis", ["qualitative content", "thematic analysis", "coding", "codebook", "manifest content", "latent content"], (0.9 : ℚ)⟩),
  ("Discourse Analysis", ⟨"discourse analysis", ["critical discourse", "discourse", "discursive", "framing analysis", "narrative analysis", "rhetorical analysis"], (0.9 : ℚ)⟩),
  ("Archival Research", ⟨"archival", ["archive", "historical document", "primary source", "document analysis", "historical record"], (0.85 : ℚ)⟩),
  ("Participant Observation", ⟨"participant observation", ["observational", "field observation", "naturalistic observation"], (0.9 : ℚ)⟩),
  ("Meta-Analysis", ⟨"meta-analysis", ["meta analysis", "systematic review", "pooled estimate", "effect size", "publication bias", "forest plot", "funnel plot"], (1.0 : ℚ)⟩),
  ("Systematic Review", ⟨"systematic review", ["literature review", "evidence synthesis", "scoping review", "prisma", "search strategy"], (0.9 : ℚ)⟩),
  ("Mixed Methods Design", ⟨"mixed method", ["mixed-method", "multi-method", "triangulation", "sequential design", "concurrent design", "qual-quant"], (0.9 : ℚ)⟩),
  ("Multi-Method Research", ⟨"multi-method", ["multiple methods", "method triangulation", "methodological pluralism"], (0.85 : ℚ)⟩),
  ("Replication Studies", ⟨"replication", ["replicate", "reproducibility", "robustness check", "sensitivity analysis"], (0.85 : ℚ)⟩),
  ("Literature Review / Survey", ⟨"literature review", ["survey article", "review article", "state of the art", "overview", "synthesis", "handbook chapter"], (0.8 : ℚ)⟩)
]

/-- `INTEREST_KEYWORDS` table from `src/lib/scoring.ts`. -/
def INTEREST_KEYWORDS : List (String × KeywordEntry) := [
  ("Causal Inference", ⟨"causal", ["causal effect", "causal inference", "causality", "causal identification", "identification strategy", "treatment effect", "causal impact", "endogeneity", "selection bias", "omitted variable", "confounding"], (1.0 : ℚ)⟩),
  ("Machine Learning / AI", ⟨"machine learning", ["artificial intelligence", "ai ", "deep learning", "neural network", "algorithm", "prediction", "supervised", "unsupervised"], (0.95 : ℚ)⟩),
  ("Experimental Methods", ⟨"experiment", ["rct", "randomized", "field experiment", "lab experiment", "treatment group", "control group", "random assignment"], (1.0 : ℚ)⟩),
  ("Formal Theory / Game Theory", ⟨"game theory", ["formal model", "equilibrium", "strategic", "nash", "mechanism design", "auction", "bargaining", "signaling", "formal theory"], (1.0 : ℚ)⟩),
  ("Inequality", ⟨"inequality", ["income inequality", "wealth inequality", "economic inequality", "income distribution", "wealth distribution", "gini coefficient", "top 1%", "top income", "redistribution", "intergenerational"], (1.0 : ℚ)⟩),
  ("Education", ⟨"education", ["school", "student", "teacher", "college", "university", "test score", "achievement gap", "graduation", "dropout", "human capital", "educational attainment", "enrollment"], (0.9 : ℚ)⟩),
  ("Housing", ⟨"housing", ["house price", "home price", "rent", "rental", "mortgage", "homeownership", "housing market", "real estate", "zoning", "affordability", "eviction", "homelessness"], (1.0 : ℚ)⟩),
  ("Health", ⟨"health", ["healthcare", "hospital", "physician", "doctor", "patient", "mortality", "morbidity", "life expectancy", "disease", "health insurance", "medicare", "medicaid", "medical"], (0.9 : ℚ)⟩),
  ("Labor Markets", ⟨"labor", ["labour", "employment", "unemployment", "wage", "wages", "worker", "job", "hiring", "layoff", "minimum wage", "labor supply", "labor demand", "earnings", "workforce"], (0.85 : ℚ)⟩),
  ("Poverty and Welfare", ⟨"poverty", ["poor", "welfare", "social assistance", "transfer", "food stamp", "snap", "eitc", "safety net", "benefit", "low-income", "disadvantaged", "tanf"], (1.0 : ℚ)⟩),
  ("Taxation", ⟨"tax", ["taxation", "income tax", "corporate tax", "tax rate", "tax evasion", "tax avoidance", "tax policy", "tax reform", "marginal tax", "progressive tax", "tax revenue"], (1.0 : ℚ)⟩),
  ("Trade and Globalization", ⟨"trade", ["international trade", "tariff", "import", "export", "globalization", "trade policy", "trade war", "china shock", "offshoring", "outsourcing", "comparative advantage", "wto"], (1.0 : ℚ)⟩),
  ("Monetary Policy", ⟨"monetary policy", ["central bank", "federal reserve", "fed ", "interest rate", "inflation", "money supply", "quantitative easing", "qe", "zero lower bound", "monetary transmission"], (1.0 : ℚ)⟩),
  ("Fiscal Policy", ⟨"fiscal", ["government spending", "fiscal policy", "stimulus", "austerity", "deficit", "debt", "multiplier", "budget", "public spending"], (1.0 : ℚ)⟩),
  ("Innovation and Technology", ⟨"innovation", ["patent", "r&d", "research and development", "invention", "entrepreneur", "startup", "technology", "productivity", "technological change", "creative destruction"], (0.9 : ℚ)⟩),
  ("Development", ⟨"development", ["developing country", "developing world", "poor country", "foreign aid", "microfinance", "microcredit", "poverty reduction", "economic development", "third world", "global south"], (0.9 : ℚ)⟩),
  ("Climate and Energy", ⟨"climate", ["climate change", "global warming", "carbon", "emissions", "greenhouse gas", "renewable", "energy", "fossil fuel", "carbon tax", "cap and trade", "electricity", "solar", "wind"], (1.0 : ℚ)⟩),
  ("Agriculture and Food", ⟨"agricultur", ["farm", "crop", "food security", "rural", "land", "food policy", "agricultural policy", "harvest"], (0.9 : ℚ)⟩),
  ("Finance and Banking", ⟨"financ", ["bank", "credit", "loan", "investment", "stock market", "financial market", "asset", "financial crisis"], (0.85 : ℚ)⟩),
  ("Entrepreneurship", ⟨"entrepreneur", ["startup", "small business", "venture capital", "founder", "firm formation", "business creation", "self-employment"], (0.9 : ℚ)⟩),
  ("Elections and Voting", ⟨"election", ["vote", "voting", "voter", "ballot", "electoral", "turnout", "campaign", "candidate", "polling", "poll", "democrat", "republican", "partisan"], (1.0 : ℚ)⟩),
  ("Democracy and Democratization", ⟨"democra", ["democratic", "democratization", "regime", "autocracy", "political freedom", "civil liberties", "democratic transition"], (1.0 : ℚ)⟩),
  ("Conflict and Security", ⟨"conflict", ["war", "civil war", "violence", "military", "peace", "terrorism", "security", "battle", "casualty", "armed"], (1.0 : ℚ)⟩),
  ("International Cooperation", ⟨"international cooperation", ["multilateral", "international organization", "treaty", "alliance", "diplomacy", "foreign policy"], (0.95 : ℚ)⟩),
  ("Political Institutions", ⟨"institution", ["constitution", "legislature", "parliament", "congress", "executive", "judiciary", "bureaucracy", "federalism"], (0.9 : ℚ)⟩),
  ("Public Opinion", ⟨"public opinion", ["survey", "polling", "attitude", "belief", "preference", "opinion poll", "political attitudes"], (0.95 : ℚ)⟩),
  ("Political Behavior", ⟨"political behavior", ["protest", "social movement", "collective action", "civic engagement", "political participation"], (0.9 : ℚ)⟩),
  ("Accountability and Transparency", ⟨"accountab", ["transparency", "oversight", "audit", "monitoring", "information disclosure", "freedom of information", "watchdog"], (1.0 : ℚ)⟩),
  ("Corruption", ⟨"corrupt", ["bribery", "rent-seeking", "clientelism", "patronage", "anti-corruption", "integrity", "graft", "embezzlement"], (1.0 : ℚ)⟩),
  ("Rule of Law", ⟨"rule of law", ["legal system", "court", "judicial", "law enforcement", "property rights", "contract enforcement", "justice"], (0.95 : ℚ)⟩),
  ("State Capacity", ⟨"state capacity", ["state building", "governance", "public administration", "bureaucratic capacity", "fiscal capacity", "weak state"], (1.0 : ℚ)⟩),
  ("Authoritarianism", ⟨"authoritarian", ["autocracy", "dictatorship", "repression", "censorship", "political control", "one-party", "strongman"], (1.0 : ℚ)⟩),
  ("Gender", ⟨"gender", ["female", "women", "woman", "male", "men", "sex difference", "gender gap", "wage gap", "discrimination", "motherhood", "child penalty", "fertility", "family", "maternity"], (0.9 : ℚ)⟩),
  ("Race and Ethnicity", ⟨"race", ["racial", "ethnicity", "ethnic", "minority", "discrimination", "segregation", "diversity", "black", "hispanic", "asian"], (0.95 : ℚ)⟩),
  ("Immigration", ⟨"immigra", ["migrant", "migration", "refugee", "asylum", "foreign-born", "native-born", "undocumented", "visa", "border"], (1.0 : ℚ)⟩),
  ("Crime and Justice", ⟨"crime", ["criminal", "police", "policing", "prison", "incarceration", "recidivism", "sentencing", "arrest", "violence", "homicide"], (1.0 : ℚ)⟩),
  ("Social Mobility", ⟨"mobility", ["intergenerational", "upward mobility", "downward mobility", "economic mobility", "income mobility", "opportunity"], (1.0 : ℚ)⟩),
  ("Social Networks", ⟨"network", ["social network", "peer effect", "social connection", "network analysis", "social capital", "ties", "centrality"], (0.95 : ℚ)⟩),
  ("Media and Information", ⟨"media", ["news", "journalism", "press", "newspaper", "television", "information", "media effects", "communication"], (0.9 : ℚ)⟩),
  ("Social Media and Digital Platforms", ⟨"social media", ["facebook", "twitter", "platform", "online", "digital", "internet", "viral", "tech platform", "app"], (1.0 : ℚ)⟩),
  ("Misinformation and Fake News", ⟨"misinformation", ["disinformation", "fake news", "fact-checking", "rumor", "propaganda", "media literacy", "false information"], (1.0 : ℚ)⟩),
  ("Trust and Social Capital", ⟨"trust", ["social capital", "social cohesion", "cooperation", "civic participation", "community", "solidarity"], (0.9 : ℚ)⟩),
  ("Norms and Culture", ⟨"norm", ["culture", "social norm", "cultural", "tradition", "values", "beliefs", "customs", "socialization"], (0.9 : ℚ)⟩),
  ("Religion", ⟨"religio", ["church", "faith", "islam", "muslim", "christian", "secularization", "spirituality", "religious"], (0.9 : ℚ)⟩),
  ("Organizations and Firms", ⟨"organization", ["firm", "company", "corporate", "business", "management", "organizational behavior"], (0.85 : ℚ)⟩),
  ("Corporate Governance", ⟨"corporate governance", ["board", "shareholder", "executive compensation", "CEO", "ownership", "agency problem"], (0.95 : ℚ)⟩),
  ("Leadership", ⟨"leadership", ["leader", "manager", "executive", "authority", "decision-making", "management"], (0.85 : ℚ)⟩),
  ("Decision Making", ⟨"decision", ["choice", "judgment", "cognitive", "heuristic", "bounded rationality", "decision-making"], (0.85 : ℚ)⟩),
  ("Behavioral Biases", ⟨"bias", ["behavioral", "cognitive bias", "framing", "anchoring", "overconfidence", "prospect theory", "loss aversion"], (0.9 : ℚ)⟩),
  ("Nudges and Choice Architecture", ⟨"nudge", ["choice architecture", "behavioral intervention", "default", "libertarian paternalism", "behavioral policy"], (1.0 : ℚ)⟩),
  ("Risk and Uncertainty", ⟨"risk", ["uncertainty", "risk aversion", "insurance", "probability", "expected utility", "ambiguity"], (0.85 : ℚ)⟩),
  ("Prosocial Behavior", ⟨"prosocial", ["altruism", "cooperation", "charitable", "donation", "volunteering", "helping", "generosity"], (0.9 : ℚ)⟩)
]

/-! ## The relevance scorer (`RelevanceScorer` in `src/lib/scoring.ts`) -/

/-- `TIER_SCORES` lookup: `{ 1: 1.0, 2: 0.8, 3: 0.6, 4: 0.3 }`. -/
def TIER_SCORES (t : ℕ) : Option ℚ :=
  if t = 1 then some 1.0
  else if t = 2 then some 0.8
  else if t = 3 then some 0.6
  else if t = 4 then some 0.3
  else none

/-- The loop body of `countKeywordMatches`: a term matches when its
normalized form is nonempty and occurs in the normalized text. -/
def termMatches (text : String) (term : String) : Bool :=
  let textNorm := normalizeText text
  let termNorm := normalizeText term
  (termNorm != "") && jsIncludes textNorm termNorm

/-- `countKeywordMatches`: count the listed terms whose nonempty normalized
form occurs in the normalized text, and map the count to a weighted
sub-score (0 / 0.6w / 0.8w / 1.0w). -/
def countKeywordMatches (text : String) (entry : KeywordEntry) : ℕ × ℚ :=
  let allTerms := entry.canonical :: entry.synonyms
  let matchCount := allTerms.foldl
    (fun acc term => if termMatches text term then acc + 1 else acc) 0
  if matchCount = 0 then (0, 0.0)
  else if matchCount = 1 then (matchCount, 0.6 * entry.weight)
  else if matchCount = 2 then (matchCount, 0.8 * entry.weight)
  else (matchCount, 1.0 * entry.weight)

/-- The per-profile state the `RelevanceScorer` constructor computes. -/
structure ScorerState where
  profile : UserProfile
  targetConcepts : List String
  isGeneralist : Bool
  hasInterests : Bool
  hasMethods : Bool

/-- The generalist test of the `RelevanceScorer` constructor. -/
def isGeneralistProfile (profile : UserProfile) : Bool :=
  isGeneralistField profile.primary_field ||
    isGeneralistLevel profile.academic_level ||
    profile.experience_type == .generalist ||
    profile.experience_type == .explorer

/-- Insertion into the `Set` of target concepts (dedup, insertion order). -/
def addUnique (l : List String) (c : String) : List String :=
  if l.contains c then l else l ++ [c]

/-- The `RelevanceScorer` constructor: generalist flag, interest/method
presence flags, and the normalized target-concept set built from the field
concepts (skipped for generalists) and the interest concepts. -/
def mkScorer (profile : UserProfile) : ScorerState :=
  let isGen := isGeneralistProfile profile
  let fieldCs : List String :=
    if !isGen then
      match lookupTable FIELD_TO_CONCEPTS profile.primary_field with
      | some cs => cs
      | none => []
    else []
  let t0 := fieldCs.foldl (fun acc c => addUnique acc (normalizeText c)) []
  let t1 := profile.interests.foldl
    (fun acc interest =>
      match lookupTable INTEREST_TO_CONCEPTS interest with
      | some cs => cs.foldl (fun acc2 c => addUnique acc2 (normalizeText c)) acc
      | none => acc) t0
  { profile := profile
    targetConcepts := t1
    isGeneralist := isGen
    hasInterests := !profile.interests.isEmpty
    hasMethods := !profile.methods.isEmpty }

/-- `scoreBaseline`: quality floor from journal tier and citation count. -/
def scoreBaseline (paper : Paper) : ℚ :=
  let tier := if paper.journal_tier = 0 then 4 else paper.journal_tier
  let tierScore := (TIER_SCORES tier).getD 0.3
  let cites := paper.cited_by_count
  let citeScore : ℚ :=
    if cites ≥ 50 then 1.0
    else if cites ≥ 20 then 0.85
    else if cites ≥ 10 then 0.7
    else if cites ≥ 5 then 0.55
    else if cites ≥ 1 then 0.4
    else 0.3
  let rawBaseline := tierScore * 0.6 + citeScore * 0.4
  3.0 + rawBaseline * 2.0

/-- `scoreConcepts`: weighted sum of confidences of the paper tags matching
some target concept (either string containing the other), normalized by 1.5
and capped at 1; up to five matched tag names are retained. -/
def scoreConcepts (st : ScorerState) (paper : Paper) : ℚ × List String :=
  if paper.concepts.isEmpty || st.targetConcepts.isEmpty then (0.0, [])
  else
    let r := paper.concepts.foldl
      (fun (acc : ℚ × List String) concept =>
        let cname := normalizeText concept.name
        if st.targetConcepts.any (fun target =>
            jsIncludes target cname || jsIncludes cname target) then
          (acc.1 + concept.score, acc.2 ++ [concept.name])
        else acc) (0, [])
    (min 1.0 (r.1 / 1.5), r.2.take 5)

/-- The loop body of `scoreInterestKeywords`: walk the ordered interest
list, look each interest up in `INTEREST_KEYWORDS`, and collect the
position-weighted sub-scores and matched labels. -/
def interestLoop (text : String) : List String → ℕ → List ℚ × List String
  | [], _ => ([], [])
  | interest :: rest, i =>
    let tail := interestLoop text rest (i + 1)
    match lookupTable INTEREST_KEYWORDS interest with
    | none => tail
    | some entry =>
      let m := countKeywordMatches text entry
      if m.1 > 0 then
        let posWeight := max 0.6 (1 - (i : ℚ) * 0.08)
        (m.2 * posWeight :: tail.1, interest :: tail.2)
      else tail

/-- `scoreInterestKeywords`: combine the matched interest sub-scores as
best×0.6 + average×0.4 with multi-match bonus ×1.2 (≥3) or ×1.1 (≥2),
capped at 1. -/
def scoreInterestKeywords (st : ScorerState) (text : String) : ℚ × List String :=
  if !st.hasInterests then (0.0, [])
  else
    match interestLoop text st.profile.interests 0 with
    | ([], _) => (0.0, [])
    | (s :: ss, matched) =>
      let best := ss.foldl max s
      let avg := ((s :: ss).foldl (· + ·) 0) / ((s :: ss).length : ℚ)
      let combined := best * 0.6 + avg * 0.4
      let combined :=
        if matched.length ≥ 3 then combined * 1.2
        else if matched.length ≥ 2 then combined * 1.1
        else combined
      (min 1.0 combined, matched)

/-- The loop body of `scoreMethods`, with decay `max(0.5, 1 − idx×0.1)`. -/
def methodLoop (text : String) : List String → ℕ → List ℚ × List String
  | [], _ => ([], [])
  | method :: rest, i =>
    let tail := methodLoop text rest (i + 1)
    match lookupTable METHOD_KEYWORDS method with
    | none => tail
    | some entry =>
      let m := countKeywordMatches text entry
      if m.1 > 0 then
        let posWeight := max 0.5 (1 - (i : ℚ) * 0.1)
        (m.2 * posWeight :: tail.1, method :: tail.2)
      else tail

/-- `scoreMethods`: combine as best×0.7 + average×0.3 with bonus ×1.15 for
≥2 matches, capped at 1. -/
def scoreMethods (st : ScorerState) (text : String) : ℚ × List String :=
  if !st.hasMethods then (0.0, [])
  else
    match methodLoop text st.profile.methods 0 with
    | ([], _) => (0.0, [])
    | (s :: ss, matched) =>
      let best := ss.foldl max s
      let avg := ((s :: ss).foldl (· + ·) 0) / ((s :: ss).length : ℚ)
      let combined := best * 0.7 + avg * 0.3
      let combined := if matched.length ≥ 2 then combined * 1.15 else combined
      (min 1.0 combined, matched)

/-- The detected approach of `detectApproach`. -/
inductive DetectedApproach where
  | quantitative
  | qualitative
  | mixed
  | unknown
deriving DecidableEq, BEq

/-- The quantitative signal terms of `detectApproach`. -/
def quantSignals : List String :=
  ["regression", "coefficient", "standard error", "statistical",
   "p-value", "significance", "estimate", "model", "data",
   "sample", "observation", "variable", "econometric"]

/-- The qualitative signal terms of `detectApproach`. -/
def qualSignals : List String :=
  ["interview", "ethnograph", "case study", "qualitative",
   "participant", "fieldwork", "archival", "discourse",
   "narrative", "thematic", "interpretive"]

/-- `detectApproach`: keyword-count heuristic over the lowercased text. -/
def detectApproach (text : String) : DetectedApproach :=
  let textLower := toLowerStr text
  let quantCount := (quantSignals.filter (fun s => jsIncludes textLower s)).length
  let qualCount := (qualSignals.filter (fun s => jsIncludes textLower s)).length
  if quantCount > 2 ∧ qualCount > 2 then .mixed
  else if quantCount > 2 then .quantitative
  else if qualCount > 2 then .qualitative
  else .unknown

/-- Equality between a detected approach label and a stated preference
(the string comparison `detected === pref` of the source). -/
def approachEq (det : DetectedApproach) (pref : ApproachPreference) : Bool :=
  match det, pref with
  | .quantitative, .quantitative => true
  | .qualitative, .qualitative => true
  | _, _ => false

/-- `scoreApproachAlignment`. -/
def scoreApproachAlignment (st : ScorerState) (text : String) : ℚ :=
  let pref := st.profile.approach_preference
  if pref = .no_preference ∨ pref = .both then 0.5
  else
    let detected := detectApproach text
    if detected = .unknown then 0.5
    else if detected = .mixed then 0.7
    else if approachEq detected pref then 1.0
    else 0.3

/-- `scoreFieldRelevance`: multiplier and adjacent flag for the paper's
journal field, with the explicit opt-in branch checked before the
adjacency test, exactly as in the source. -/
def scoreFieldRelevance (st : ScorerState) (paper : Paper) : ℚ × Bool :=
  match paper.journal_field with
  | none => (1.0, false)
  | some journalField =>
    let isAdjacent := isAdjacentField journalField
    if st.profile.include_adjacent_fields &&
        st.profile.selected_adjacent_fields.contains journalField then
      (0.95, true)
    else if !isAdjacent then (1.0, false)
    else (0.7, true)

/-- `buildExplanation`. -/
def buildExplanation (st : ScorerState) (matchedInterests matchedMethods : List String)
    (paper : Paper) (isAdjacent : Bool) : String :=
  let parts : List String := []
  let parts :=
    if !matchedInterests.isEmpty then
      parts ++ [String.intercalate ", " (matchedInterests.take 2)]
    else parts
  let parts :=
    if !matchedMethods.isEmpty then
      let methodsStr :=
        match matchedMethods with
        | [m] => m
        | m :: _ => m ++ " + more"
        | [] => ""
      parts ++ ["Uses " ++ methodsStr]
    else parts
  let tier := if paper.journal_tier = 0 then 4 else paper.journal_tier
  let parts :=
    if tier = 1 then parts ++ ["Top journal"]
    else if tier = 2 then parts ++ ["Top field journal"]
    else parts
  let parts := if isAdjacent then parts ++ ["Related field"] else parts
  if parts.isEmpty then
    if st.isGeneralist then "Recent quality research" else "Related to your field"
  else String.intercalate " · " parts

/-- `scorePaper`: the main per-paper scoring function. -/
def scorePaper (st : ScorerState) (paper : Paper) : MatchScore :=
  let text := paper.title ++ " " ++ paper.title ++ " " ++ paper.abstract
  let baselineScore := scoreBaseline paper
  let cRes := scoreConcepts st paper
  let conceptScore := cRes.1
  let matchedConcepts := cRes.2
  let kRes := scoreInterestKeywords st text
  let keywordScore := kRes.1
  let matchedInterests := kRes.2
  let topicBonus0 := max conceptScore keywordScore
  let topicBonus :=
    if conceptScore > 0.3 ∧ keywordScore > 0.3 then min 1.0 (topicBonus0 * 1.15)
    else topicBonus0
  let mRes := scoreMethods st text
  let methodScore := mRes.1
  let matchedMethods := mRes.2
  let approachScore := scoreApproachAlignment st text
  let methodBonus :=
    if st.hasMethods then methodScore * 0.8 + approachScore * 0.2 else 0
  let fRes := scoreFieldRelevance st paper
  let fieldRelevance := fRes.1
  let isAdjacent := fRes.2
  let topicAddition :=
    if st.hasInterests then topicBonus * 3.0
    else if st.isGeneralist then conceptScore * 1.0
    else 0
  let methodAddition := if st.hasMethods then methodBonus * 2.0 else 0
  let rawScore := (baselineScore + topicAddition + methodAddition) * fieldRelevance
  let finalScore := clamp110 rawScore
  { total := round1 finalScore
    baseline_score := round2 baselineScore
    concept_score := round3 conceptScore
    keyword_score := round3 keywordScore
    method_score := round3 methodScore
    quality_score := round3 ((baselineScore - 3) / 2)
    field_relevance_score := round3 fieldRelevance
    matched_interests := matchedInterests
    matched_methods := matchedMethods
    matched_topics := matchedConcepts
    explanation := buildExplanation st matchedInterests matchedMethods paper isAdjacent
    is_adjacent_field := isAdjacent }

/-! ## Public scoring API (`processPapers`) -/

/-- Attach a `MatchScore` to a paper (the spread in `processPapers`). -/
def toScoredPaper (p : Paper) (m : MatchScore) : ScoredPaper :=
  { p with
    relevance_score := m.total
    matched_interests := m.matched_interests
    matched_methods := m.matched_methods
    matched_topics := m.matched_topics
    match_explanation := m.explanation
    is_adjacent_field := m.is_adjacent_field
    ai_score := none
    ai_discovery := none
    original_score := none
    ai_explanation := none }

/-- Stable descending insertion: walking the sorted tail (papers that came
later in the input), a paper is placed before the first one whose score
does not exceed its own, so equal scores keep their input order (the
behaviour of the stable ES2019 `sort` on `(a, b) => b.score - a.score`). -/
def insertByScoreDesc (x : ScoredPaper) : List ScoredPaper → List ScoredPaper
  | [] => [x]
  | y :: ys =>
    if y.relevance_score ≤ x.relevance_score then x :: y :: ys
    else y :: insertByScoreDesc x ys

/-- Stable descending sort by `relevance_score`. -/
def sortByScoreDesc (l : List ScoredPaper) : List ScoredPaper :=
  l.foldr insertByScoreDesc []

/-- `processPapers`: score every paper, sort descending, and build the
summary line. -/
def processPapers (profile : UserProfile) (papers : List Paper) :
    List ScoredPaper × String :=
  if papers.isEmpty then ([], "No papers found.")
  else
    let st := mkScorer profile
    let results := papers.map (fun p => toScoredPaper p (scorePaper st p))
    let results := sortByScoreDesc results
    let high := (results.filter (fun p => decide (p.relevance_score ≥ 7.0))).length
    let summaryPre :=
      if profile.interests.isEmpty && profile.methods.isEmpty then
        "Showing quality research:"
      else "Analyzed"
    (results,
      summaryPre ++ " " ++ toString papers.length ++ " papers · " ++
        toString high ++ " highly relevant")

/-! ## AI batch reranker (`src/lib/ai-reranker.ts`) -/

/-- Reranker configuration: API key and optional model id. -/
structure AIRerankerConfig where
  apiKey : String
  model : Option String

/-- The result record of `aiRerank`. -/
structure AIRerankerResult where
  papers : List ScoredPaper
  aiEnhanced : Bool
  aiPapersScored : ℕ
  error : Option String
deriving DecidableEq

/-- One entry of the JSON array of a service response; a field is `none`
when absent (or of a non-numeric / non-string type). -/
structure JsonItem where
  i : Option ℚ
  r : Option ℚ
  s : Option ℚ
  d : Option ℚ
  e : Option String
deriving DecidableEq

/-- One parsed score of `parseScores`. -/
structure ParsedScore where
  index : ℚ
  score : ℚ
  discovery : ℚ
  reason : String
deriving DecidableEq

/-- `parseScores` (after JSON extraction) restricted to responses whose
fields are numeric or absent — the form the batch pipeline's oracle
carries: keep the object entries with a numeric in-range index and a
numeric `r` or `s` field, then clamp and round the scores and truncate the
reason. The general model over arbitrary JSON field values is
`parseScoresJS` below; `parseScoresJS_agrees_on_numeric` shows this
function is its numeric restriction. -/
def parseScores (items : List (Option JsonItem)) (expectedCount : ℕ) :
    List ParsedScore :=
  let objs := items.filterMap id
  let good := objs.filter (fun it =>
    match it.i with
    | none => false
    | some iv =>
      (it.r.isSome || it.s.isSome) &&
        (if 0 ≤ iv ∧ iv < (expectedCount : ℚ) then true else false))
  good.map (fun it =>
    let rv := ((it.r.orElse (fun _ => it.s)).getD 5)
    let dv := (((it.d.orElse (fun _ => it.r)).orElse (fun _ => it.s)).getD 5)
    { index := it.i.getD 0
      score := clamp110 (round1 rv)
      discovery := clamp110 (round1 dv)
      reason := match it.e with | some sv => String.mk (sv.toList.take 80) | none => "" })

/-! ### The score parser over arbitrary JSON values -/

/-- A JSON field value as `JSON.parse` can produce it: a finite number, a
string, a boolean, or an array/object (whose contents this code never
inspects). `null`, like an absent field, is nullish and is represented by
`Option.none` at the field level. -/
inductive JVal where
  | num (q : ℚ)
  | str (v : String)
  | bool (b : Bool)
  | arr
  | obj
deriving DecidableEq

/-- Digits to a natural number. -/
def digitsToNat (cs : List Char) : ℕ :=
  cs.foldl (fun a c => a * 10 + (c.toNat - '0'.toNat)) 0

/-- JavaScript string-to-number coercion (`Number(v)`), for the decimal
numeral grammar: optional whitespace, optional sign, digits with optional
fractional part and optional exponent; the empty (or all-whitespace)
string is 0; anything else is NaN (`none`). Hexadecimal/binary/octal and
`Infinity` forms are also modelled as NaN. -/
def jsStringToNumber (v : String) : Option ℚ :=
  let cs := ((v.toList.dropWhile isWsChar).reverse.dropWhile isWsChar).reverse
  if cs.isEmpty then some 0
  else
    let signed : ℚ × List Char :=
      match cs with
      | '+' :: rest => (1, rest)
      | '-' :: rest => (-1, rest)
      | _ => (1, cs)
    let sign := signed.1
    let cs1 := signed.2
    let intDigits := cs1.takeWhile Char.isDigit
    let rest1 := cs1.dropWhile Char.isDigit
    let fracPair : List Char × List Char :=
      match rest1 with
      | '.' :: r => (r.takeWhile Char.isDigit, r.dropWhile Char.isDigit)
      | _ => ([], rest1)
    let fracDigits := fracPair.1
    let rest2 := fracPair.2
    let expTriple : Bool × ℤ × List Char :=
      match rest2 with
      | 'e' :: r | 'E' :: r =>
        match r with
        | '+' :: rr =>
          (!(rr.takeWhile Char.isDigit).isEmpty,
            (digitsToNat (rr.takeWhile Char.isDigit) : ℤ), rr.dropWhile Char.isDigit)
        | '-' :: rr =>
          (!(rr.takeWhile Char.isDigit).isEmpty,
            -(digitsToNat (rr.takeWhile Char.isDigit) : ℤ), rr.dropWhile Char.isDigit)
        | _ =>
          (!(r.takeWhile Char.isDigit).isEmpty,
            (digitsToNat (r.takeWhile Char.isDigit) : ℤ), r.dropWhile Char.isDigit)
      | _ => (true, 0, rest2)
    if intDigits.isEmpty && fracDigits.isEmpty then none
    else if !expTriple.1 then none
    else if !expTriple.2.2.isEmpty then none
    else
      let mant : ℚ := (digitsToNat intDigits : ℚ) +
        (digitsToNat fracDigits : ℚ) / (10 : ℚ) ^ fracDigits.length
      some (sign * mant * (10 : ℚ) ^ expTriple.2.1)

/-- JavaScript `ToNumber` of a JSON value inside arithmetic (`none` is
NaN): numbers are themselves, strings parse by the numeral grammar,
booleans are 0/1, arrays and objects are modelled as NaN. -/
def JVal.toNumber : JVal → Option ℚ
  | .num q => some q
  | .str v => jsStringToNumber v
  | .bool b => some (if b then 1 else 0)
  | .arr => none
  | .obj => none

/-- One entry of the JSON array of a service response, with arbitrary
JSON field values; a field is `none` when absent or `null`. -/
structure JsonItemJS where
  i : Option JVal
  r : Option JVal
  s : Option JVal
  d : Option JVal
  e : Option JVal
deriving DecidableEq

/-- `typeof x === "number"` on an optional field. -/
def isNumV : Option JVal → Bool
  | some (JVal.num _) => true
  | _ => false

/-- One parsed score over JSON values; a `none` score is NaN. -/
structure ParsedScoreJS where
  index : ℚ
  score : Option ℚ
  discovery : Option ℚ
  reason : String
deriving DecidableEq

/-- `Math.max(1, Math.min(10, Math.round(ToNumber(v) * 10) / 10))`: NaN
propagates through rounding, clamping and the comparisons, so a value with
no numeric meaning stays NaN. -/
def nanClampRound (v : JVal) : Option ℚ :=
  match v.toNumber with
  | none => none
  | some q => some (clamp110 (round1 q))

/-- `parseScores` (after JSON extraction) over arbitrary JSON values:
keep the object entries with a numeric in-range index and a numeric `r` or
`s` field; the kept `r ?? s ?? 5` and `d ?? r ?? s ?? 5` coalescings take
the first non-nullish value even when it is not numeric, so a kept entry
with a string (or array/object) `r` or `d` yields a NaN score. The reason
falls back from a string `e` to a string `r` (the legacy shape). The
filter predicate: -/
def jsItemKept (expectedCount : ℕ) (it : JsonItemJS) : Bool :=
  match it.i with
  | some (JVal.num iv) =>
    (isNumV it.r || isNumV it.s) &&
      (if 0 ≤ iv ∧ iv < (expectedCount : ℚ) then true else false)
  | _ => false

/-- The map body of `parseScoresJS`. -/
def jsItemParse (it : JsonItemJS) : ParsedScoreJS :=
  let rv := (it.r.orElse (fun _ => it.s)).getD (JVal.num 5)
  let dv := ((it.d.orElse (fun _ => it.r)).orElse (fun _ => it.s)).getD (JVal.num 5)
  { index := match it.i with | some (JVal.num iv) => iv | _ => 0
    score := nanClampRound rv
    discovery := nanClampRound dv
    reason :=
      match it.e with
      | some (JVal.str sv) => String.mk (sv.toList.take 80)
      | _ =>
        match it.r with
        | some (JVal.str rs) => String.mk (rs.toList.take 80)
        | _ => "" }

def parseScoresJS (items : List (Option JsonItemJS)) (expectedCount : ℕ) :
    List ParsedScoreJS :=
  let objs := items.filterMap id
  let good := objs.filter (jsItemKept expectedCount)
  good.map jsItemParse

/-- Embed a numeric-or-absent response entry into the JSON-value model. -/
def jsonItemOfNumeric (it : JsonItem) : JsonItemJS :=
  { i := it.i.map JVal.num
    r := it.r.map JVal.num
    s := it.s.map JVal.num
    d := it.d.map JVal.num
    e := it.e.map JVal.str }

/-- Batching: split the eligible papers into chunks of `BATCH_SIZE = 8`
together with their offsets. -/
def chunk8 : List ScoredPaper → ℕ → List (List ScoredPaper × ℕ)
  | [], _ => []
  | a :: b :: c :: d :: e :: f :: g :: h :: rest, off =>
    ([a, b, c, d, e, f, g, h], off) :: chunk8 rest (off + 8)
  | l, off => [(l, off)]

/-- The fatal-error test of the batch loop: the caught message is checked
for the substrings `"key"`, `"uota"`, `"permission"`, `"odel"`. -/
def isFatalMsg (msg : String) : Bool :=
  jsIncludes msg "key" || jsIncludes msg "uota" ||
    jsIncludes msg "permission" || jsIncludes msg "odel"

/-- The mutable state of the batch loop of `aiRerank`. -/
structure BatchState where
  aiScores : List (ℚ × ParsedScore)
  lastError : Option String
  batchesSucceeded : ℕ

/-- `Map.set`: overwrite the value at a key, or append a new binding. -/
def mapSet (m : List (ℚ × ParsedScore)) (k : ℚ) (v : ParsedScore) :
    List (ℚ × ParsedScore) :=
  (m.filter (fun p => p.1 != k)) ++ [(k, v)]

/-- `Map.get`: the value bound to a key, if any. -/
def mapGet (m : List (ℚ × ParsedScore)) (k : ℚ) : Option ParsedScore :=
  (m.find? (fun p => p.1 == k)).map (fun p => p.2)

/-- The batch loop of `aiRerank`: for each batch call the service (through
the oracle), record the parsed scores at `offset + index`, count succeeded
batches, and on a caught error record it and break when the message matches
the fatal-error test. -/
def runBatches (oracle : ℕ → Except String (List (Option JsonItem))) :
    List (List ScoredPaper × ℕ) → ℕ → BatchState → BatchState
  | [], _, st => st
  | (bpapers, off) :: rest, idx, st =>
    match oracle idx with
    | .ok items =>
      let scores := parseScores items bpapers.length
      let m := scores.foldl (fun acc sc => mapSet acc ((off : ℚ) + sc.index) sc) st.aiScores
      let succ := if scores.length > 0 then st.batchesSucceeded + 1 else st.batchesSucceeded
      runBatches oracle rest (idx + 1)
        { aiScores := m, lastError := st.lastError, batchesSucceeded := succ }
    | .error msg =>
      let st2 : BatchState :=
        { aiScores := st.aiScores, lastError := some msg,
          batchesSucceeded := st.batchesSucceeded }
      if isFatalMsg msg then st2
      else runBatches oracle rest (idx + 1) st2

/-- `taxonomyWeight = 0.55 − explorationLevel × 0.2`. -/
def taxonomyWeight (explorationLevel : ℚ) : ℚ := 0.55 - explorationLevel * 0.2

/-- The per-paper blending step of `aiRerank`: combine the AI relevance and
discovery scores by exploration level, blend with the taxonomy score,
clamp, round and attach the AI fields. Papers without an AI score are
returned unchanged. -/
def blendOne (explorationLevel tw aw : ℚ) (paper : ScoredPaper)
    (aiResult : Option ParsedScore) : ScoredPaper :=
  match aiResult with
  | none => paper
  | some r =>
    let originalScore := paper.relevance_score
    let aiCombined := r.score * (1 - explorationLevel * 0.4) +
      r.discovery * (explorationLevel * 0.4)
    let blended := round1 (clamp110 (originalScore * tw + aiCombined * aw))
    { paper with
      relevance_score := blended
      original_score := some originalScore
      ai_score := some r.score
      ai_discovery := some r.discovery
      ai_explanation := if r.reason = "" then none else some r.reason
      match_explanation := if r.reason = "" then paper.match_explanation else r.reason }

/-- Map with the element index (for `toScore.map((paper, idx) => ...)`). -/
def mapWithIndex {α β : Type} (f : ℕ → α → β) : List α → ℕ → List β
  | [], _ => []
  | a :: rest, i => f i a :: mapWithIndex f rest (i + 1)

/-- `aiRerank`: batch the top 40 papers, run the batch loop, and either
return the input unchanged (no batch succeeded) or blend the AI scores in
and re-sort, passing the tail papers through. -/
def aiRerank (papers : List ScoredPaper) (profile : UserProfile)
    (config : AIRerankerConfig)
    (oracle : ℕ → Except String (List (Option JsonItem))) : AIRerankerResult :=
  if config.apiKey = "" then
    { papers := papers, aiEnhanced := false, aiPapersScored := 0,
      error := some "No API key" }
  else
    let toScore := papers.take 40
    let remainder := papers.drop 40
    let batches := chunk8 toScore 0
    let st := runBatches oracle batches 0 ⟨[], none, 0⟩
    if st.batchesSucceeded = 0 then
      { papers := papers, aiEnhanced := false, aiPapersScored := 0,
        error := some (st.lastError.getD "AI scoring returned no results") }
    else
      let explorationLevel := profile.exploration_level.getD 0.5
      let tw := taxonomyWeight explorationLevel
      let aw := 1.0 - tw
      let scoredPapers := mapWithIndex
        (fun idx p => blendOne explorationLevel tw aw p (mapGet st.aiScores (idx : ℚ)))
        toScore 0
      { papers := sortByScoreDesc scoredPapers ++ remainder
        aiEnhanced := true
        aiPapersScored := st.aiScores.length
        error := st.lastError }


/-! ## Lemmas about the numeric helpers -/

theorem round1_mono {x y : ℚ} (h : x ≤ y) : round1 x ≤ round1 y := by
  unfold round1 jsRound
  have hf : Int.floor (x * 10 + 1/2) ≤ Int.floor (y * 10 + 1/2) :=
    Int.floor_le_floor (by linarith)
  have hf2 : ((Int.floor (x * 10 + 1/2) : ℤ) : ℚ) ≤ ((Int.floor (y * 10 + 1/2) : ℤ) : ℚ) := by
    exact_mod_cast hf
  linarith

theorem round1_monotone : Monotone round1 := fun _ _ h => round1_mono h

theorem round1_one : round1 1 = 1 := by norm_num [round1, jsRound]

theorem round1_ten : round1 10 = 10 := by norm_num [round1, jsRound]

theorem round1_clamp_comm (x : ℚ) :
    round1 (clamp110 x) = clamp110 (round1 x) := by
  unfold clamp110
  rw [round1_monotone.map_max, round1_monotone.map_min, round1_one, round1_ten]

theorem clamp110_bounds (x : ℚ) : 1 ≤ clamp110 x ∧ clamp110 x ≤ 10 := by
  unfold clamp110
  constructor
  · exact le_max_left 1 (min 10 x)
  · exact max_le (by norm_num) (min_le_left 10 x)

theorem round1_oneDecimal (x : ℚ) : OneDecimal (round1 x) :=
  ⟨jsRound (x * 10), rfl⟩

theorem clamp_round1_oneDecimal (x : ℚ) : OneDecimal (clamp110 (round1 x)) := by
  rw [← round1_clamp_comm]
  exact round1_oneDecimal _

theorem round1_clamp_bounds (x : ℚ) :
    1 ≤ round1 (clamp110 x) ∧ round1 (clamp110 x) ≤ 10 := by
  rw [round1_clamp_comm]
  exact clamp110_bounds (round1 x)

/-! ## Lemmas about the sorting and scoring pipeline -/

theorem mem_insertByScoreDesc {x a : ScoredPaper} :
    ∀ {l : List ScoredPaper}, x ∈ insertByScoreDesc a l ↔ x = a ∨ x ∈ l := by
  intro l
  induction l with
  | nil => simp [insertByScoreDesc]
  | cons y ys ih =>
    simp only [insertByScoreDesc]
    split
    · simp [List.mem_cons]
    · simp only [List.mem_cons, ih]
      tauto

theorem mem_sortByScoreDesc {x : ScoredPaper} :
    ∀ {l : List ScoredPaper}, x ∈ sortByScoreDesc l ↔ x ∈ l := by
  intro l
  induction l with
  | nil => simp [sortByScoreDesc]
  | cons a as ih =>
    show x ∈ insertByScoreDesc a (sortByScoreDesc as) ↔ _
    rw [mem_insertByScoreDesc]
    simp [ih]

theorem scorePaper_total_shape (st : ScorerState) (paper : Paper) :
    ∃ x : ℚ, (scorePaper st paper).total = round1 (clamp110 x) :=
  ⟨_, rfl⟩

/-- C1: for every user profile and every paper, the relevance score produced
by `scorePaper` — and by `processPapers`, for every paper of its output —
lies in `[1, 10]` and has one decimal of precision. -/
theorem C1_relevance_score_bounds (profile : UserProfile) (paper : Paper)
    (papers : List Paper) (sp : ScoredPaper)
    (hsp : sp ∈ (processPapers profile papers).1) :
    (1 ≤ (scorePaper (mkScorer profile) paper).total ∧
      (scorePaper (mkScorer profile) paper).total ≤ 10 ∧
      OneDecimal (scorePaper (mkScorer profile) paper).total) ∧
    (1 ≤ sp.relevance_score ∧ sp.relevance_score ≤ 10 ∧
      OneDecimal sp.relevance_score) := by
  have hone : ∀ (st : ScorerState) (p : Paper),
      1 ≤ (scorePaper st p).total ∧ (scorePaper st p).total ≤ 10 ∧
        OneDecimal (scorePaper st p).total := by
    intro st p
    obtain ⟨x, hx⟩ := scorePaper_total_shape st p
    rw [hx]
    exact ⟨(round1_clamp_bounds x).1, (round1_clamp_bounds x).2, round1_oneDecimal _⟩
  refine ⟨hone _ _, ?_⟩
  unfold processPapers at hsp
  by_cases hp : papers.isEmpty
  · simp [hp] at hsp
  · simp only [hp, Bool.false_eq_true, if_false, mem_sortByScoreDesc, List.mem_map] at hsp
    obtain ⟨p, _, hpe⟩ := hsp
    have := hone (mkScorer profile) p
    rw [← hpe]
    exact this

/-- C1 witness: a concrete profile, paper and one-element paper list. -/
def wProfileC1 : UserProfile :=
  { name := "W", academic_level := "PhD Student", primary_field := "Labor Economics",
    interests := [], methods := [], region := "Europe",
    approach_preference := .no_preference, experience_type := .specialist,
    include_adjacent_fields := false, selected_adjacent_fields := [],
    exploration_level := some 0.5 }

/-- C1 witness paper. -/
def wPaperC1 : Paper :=
  { id := "p1", title := "A note", authors := ["A"], abstract := "Short.",
    journal := "Some Journal", journal_tier := 4, journal_field := none,
    publication_date := "2025-01-01", concepts := [], cited_by_count := 0,
    is_open_access := false }

theorem C1_relevance_score_bounds_witness :
    1 ≤ (scorePaper (mkScorer wProfileC1) wPaperC1).total ∧
      (scorePaper (mkScorer wProfileC1) wPaperC1).total ≤ 10 := by
  have h := C1_relevance_score_bounds wProfileC1 wPaperC1 [wPaperC1]
    (toScoredPaper wPaperC1 (scorePaper (mkScorer wProfileC1) wPaperC1))
    (by simp [processPapers, wPaperC1, sortByScoreDesc, insertByScoreDesc,
          mem_insertByScoreDesc])
  exact ⟨h.1.1, h.1.2.1⟩


/-! ## Lemmas about the batch loop -/

theorem runBatches_allFail (oracle : ℕ → Except String (List (Option JsonItem)))
    (hfail : ∀ i, ∃ msg, oracle i = Except.error msg) :
    ∀ (bs : List (List ScoredPaper × ℕ)) (idx : ℕ) (st : BatchState),
      (runBatches oracle bs idx st).batchesSucceeded = st.batchesSucceeded := by
  intro bs
  induction bs with
  | nil => intro idx st; rfl
  | cons b rest ih =>
    intro idx st
    obtain ⟨bp, off⟩ := b
    obtain ⟨msg, hmsg⟩ := hfail idx
    simp only [runBatches, hmsg]
    split
    · rfl
    · exact ih (idx + 1) _

/-- C2: if every batch call to the external service fails, `aiRerank`
returns `aiEnhanced = false`, `aiPapersScored = 0` and the input paper list
unchanged, reporting the failure through the `error` field. -/
theorem C2_all_batches_fail (papers : List ScoredPaper) (profile : UserProfile)
    (config : AIRerankerConfig)
    (oracle : ℕ → Except String (List (Option JsonItem)))
    (hfail : ∀ i, ∃ msg, oracle i = Except.error msg) :
    (aiRerank papers profile config oracle).papers = papers ∧
    (aiRerank papers profile config oracle).aiEnhanced = false ∧
    (aiRerank papers profile config oracle).aiPapersScored = 0 ∧
    (aiRerank papers profile config oracle).error.isSome = true := by
  unfold aiRerank
  split
  · exact ⟨rfl, rfl, rfl, rfl⟩
  · rw [if_pos (runBatches_allFail oracle hfail (chunk8 (papers.take 40) 0) 0 ⟨[], none, 0⟩)]
    exact ⟨rfl, rfl, rfl, by simp⟩

/-- C2 witness oracle: every call throws. -/
def wOracleFail : ℕ → Except String (List (Option JsonItem)) :=
  fun _ => Except.error "fetch failed"

/-- C2 witness paper list. -/
def wPapersC2 : List ScoredPaper :=
  [toScoredPaper wPaperC1 (scorePaper (mkScorer wProfileC1) wPaperC1)]

theorem C2_all_batches_fail_witness :
    (aiRerank wPapersC2 wProfileC1 ⟨"api-key-1", none⟩ wOracleFail).papers = wPapersC2 ∧
    (aiRerank wPapersC2 wProfileC1 ⟨"api-key-1", none⟩ wOracleFail).aiEnhanced = false ∧
    (aiRerank wPapersC2 wProfileC1 ⟨"api-key-1", none⟩ wOracleFail).aiPapersScored = 0 ∧
    (aiRerank wPapersC2 wProfileC1 ⟨"api-key-1", none⟩ wOracleFail).error.isSome = true :=
  C2_all_batches_fail wPapersC2 wProfileC1 ⟨"api-key-1", none⟩ wOracleFail
    (fun _ => ⟨"fetch failed", rfl⟩)

/-- C6: the blend weights are `taxonomyWeight = 0.55 − explorationLevel×0.2`
(lying in `[0.35, 0.55]` and strictly decreasing in the exploration level)
and `aiWeight = 1 − taxonomyWeight`, and for every AI-scored paper the
blended score equals
`clamp(1, 10, round1(original×taxonomyWeight + aiCombined×aiWeight))` with
`aiCombined = relevance×(1 − explorationLevel×0.4) + discovery×(explorationLevel×0.4)`. -/
theorem C6_blend_weights (e e2 : ℚ) (paper : ScoredPaper) (r : ParsedScore)
    (he0 : 0 ≤ e) (he1 : e ≤ 1) (hlt : e < e2) (_he21 : e2 ≤ 1) :
    (0.35 ≤ taxonomyWeight e ∧ taxonomyWeight e ≤ 0.55) ∧
    taxonomyWeight e2 < taxonomyWeight e ∧
    (blendOne e (taxonomyWeight e) (1 - taxonomyWeight e) paper (some r)).relevance_score
      = clamp110 (round1 (paper.relevance_score * taxonomyWeight e +
          (r.score * (1 - e * 0.4) + r.discovery * (e * 0.4)) * (1 - taxonomyWeight e))) := by
  refine ⟨⟨?_, ?_⟩, ?_, ?_⟩
  · unfold taxonomyWeight; linarith
  · unfold taxonomyWeight; linarith
  · unfold taxonomyWeight; linarith
  · show round1 (clamp110 _) = _
    rw [round1_clamp_comm]

theorem C6_blend_weights_witness :
    (0.35 ≤ taxonomyWeight 0 ∧ taxonomyWeight 0 ≤ 0.55) ∧
    taxonomyWeight 1 < taxonomyWeight 0 ∧
    (blendOne 0 (taxonomyWeight 0) (1 - taxonomyWeight 0)
        (toScoredPaper wPaperC1 (scorePaper (mkScorer wProfileC1) wPaperC1))
        (some ⟨0, 8, 5, "good"⟩)).relevance_score
      = clamp110 (round1
          ((toScoredPaper wPaperC1 (scorePaper (mkScorer wProfileC1) wPaperC1)).relevance_score
              * taxonomyWeight 0 +
            ((8 : ℚ) * (1 - 0 * 0.4) + (5 : ℚ) * (0 * 0.4)) * (1 - taxonomyWeight 0))) :=
  C6_blend_weights 0 1
    (toScoredPaper wPaperC1 (scorePaper (mkScorer wProfileC1) wPaperC1))
    ⟨0, 8, 5, "good"⟩ (by norm_num) (by norm_num) (by norm_num) (by norm_num)

/-- Over the numeric-response restriction `parseScores` (the form the
batch pipeline's oracle carries), every parsed score is clamped into
`[1, 10]` and rounded to one decimal and its index lies in
`[0, batch size)`. The general statement over arbitrary JSON values, and
the NaN path that refutes it, are with the claim C10 theorems below. -/
theorem parseScores_numeric_clamped (items : List (Option JsonItem)) (n : ℕ)
    (p : ParsedScore) (hp : p ∈ parseScores items n) :
    (1 ≤ p.score ∧ p.score ≤ 10 ∧ OneDecimal p.score) ∧
    (1 ≤ p.discovery ∧ p.discovery ≤ 10 ∧ OneDecimal p.discovery) ∧
    (0 ≤ p.index ∧ p.index < (n : ℚ)) := by
  unfold parseScores at hp
  simp only [List.mem_map, List.mem_filter] at hp
  obtain ⟨it, ⟨_, hpred⟩, hfe⟩ := hp
  cases hi : it.i with
  | none => rw [hi] at hpred; simp at hpred
  | some iv =>
    rw [hi] at hpred
    simp only [Bool.and_eq_true] at hpred
    have hiv : 0 ≤ iv ∧ iv < (n : ℚ) := by
      rcases hpred with ⟨_, hcond⟩
      by_contra hniv
      rw [if_neg hniv] at hcond
      exact Bool.false_ne_true hcond
    subst hfe
    refine ⟨⟨?_, ?_, ?_⟩, ⟨?_, ?_, ?_⟩, ?_, ?_⟩
    · exact (clamp110_bounds _).1
    · exact (clamp110_bounds _).2
    · exact clamp_round1_oneDecimal _
    · exact (clamp110_bounds _).1
    · exact (clamp110_bounds _).2
    · exact clamp_round1_oneDecimal _
    · show 0 ≤ (Option.getD it.i 0)
      rw [hi]; exact hiv.1
    · show (Option.getD it.i 0) < (n : ℚ)
      rw [hi]; exact hiv.2

/-- Numeric check items: one valid entry with an out-of-scale score, one
negative-index entry, one non-object entry. -/
def wItemsC10 : List (Option JsonItem) :=
  [some ⟨some 0, some 37, none, none, some "great"⟩,
   some ⟨some (-1), some 5, none, none, none⟩,
   none]

theorem parseScores_numeric_clamped_check :
    (1 ≤ (⟨0, 10, 10, "great"⟩ : ParsedScore).score ∧
      (⟨0, 10, 10, "great"⟩ : ParsedScore).score ≤ 10 ∧
      OneDecimal (⟨0, 10, 10, "great"⟩ : ParsedScore).score) ∧
    (1 ≤ (⟨0, 10, 10, "great"⟩ : ParsedScore).discovery ∧
      (⟨0, 10, 10, "great"⟩ : ParsedScore).discovery ≤ 10 ∧
      OneDecimal (⟨0, 10, 10, "great"⟩ : ParsedScore).discovery) ∧
    (0 ≤ (⟨0, 10, 10, "great"⟩ : ParsedScore).index ∧
      (⟨0, 10, 10, "great"⟩ : ParsedScore).index < ((8 : ℕ) : ℚ)) :=
  parseScores_numeric_clamped wItemsC10 8 ⟨0, 10, 10, "great"⟩ (by
    simp only [wItemsC10, parseScores, List.filterMap, List.filter, List.map,
      Option.orElse, Option.getD, Option.isSome]
    norm_num [clamp110, round1, jsRound, max_def, min_def, Int.floor_eq_iff])

/-! ## Lemmas about the keyword matcher -/

theorem foldl_count (p : String → Bool) :
    ∀ (l : List String) (acc : ℕ),
      l.foldl (fun a t => if p t then a + 1 else a) acc = acc + (l.filter p).length := by
  intro l
  induction l with
  | nil => intro acc; simp
  | cons t ts ih =>
    intro acc
    by_cases hp : p t
    · simp only [List.foldl_cons, hp, if_true, List.filter_cons_of_pos hp, ih,
        List.length_cons]
      omega
    · simp only [List.foldl_cons, hp, if_false, List.filter_cons_of_neg hp, ih]
      simp

/-- The step function mapping a match count to a weighted sub-score. -/
def stepScore (w : ℚ) (n : ℕ) : ℚ :=
  if n = 0 then 0.0
  else if n = 1 then 0.6 * w
  else if n = 2 then 0.8 * w
  else 1.0 * w

theorem countKeywordMatches_eq (text : String) (entry : KeywordEntry) :
    countKeywordMatches text entry =
      (((entry.canonical :: entry.synonyms).filter (termMatches text)).length,
        stepScore entry.weight
          (((entry.canonical :: entry.synonyms).filter (termMatches text)).length)) := by
  simp only [countKeywordMatches]
  rw [foldl_count (termMatches text) (entry.canonical :: entry.synonyms) 0]
  simp only [Nat.zero_add]
  unfold stepScore
  split_ifs with h0 h1 h2 <;> simp [h0]

/-- C8: the match count of the keyword matcher equals the number of
distinct listed terms (canonical plus synonyms) whose normalized form is
contained in the normalized text, and the sub-score is 0 for no match,
0.6×weight for one, 0.8×weight for two and 1.0×weight for three or more
(stated for entries whose listed terms are distinct and do not normalize to
the empty string). -/
theorem C8_keyword_match_count (text : String) (entry : KeywordEntry)
    (h1 : (entry.canonical :: entry.synonyms).Nodup)
    (h2 : ∀ t ∈ entry.canonical :: entry.synonyms, normalizeText t ≠ "") :
    (countKeywordMatches text entry).1
      = (((entry.canonical :: entry.synonyms).filter
            (fun t => jsIncludes (normalizeText text) (normalizeText t))).dedup).length
    ∧ (countKeywordMatches text entry).2
      = (if (countKeywordMatches text entry).1 = 0 then 0
         else if (countKeywordMatches text entry).1 = 1 then 0.6 * entry.weight
         else if (countKeywordMatches text entry).1 = 2 then 0.8 * entry.weight
         else 1.0 * entry.weight) := by
  have hfe : (entry.canonical :: entry.synonyms).filter (termMatches text)
      = (entry.canonical :: entry.synonyms).filter
          (fun t => jsIncludes (normalizeText text) (normalizeText t)) := by
    apply List.filter_congr
    intro t ht
    show ((normalizeText t != "") && jsIncludes (normalizeText text) (normalizeText t)) = _
    have : (normalizeText t != "") = true := by
      simp [h2 t ht]
    rw [this, Bool.true_and]
  have hnd : ((entry.canonical :: entry.synonyms).filter
      (fun t => jsIncludes (normalizeText text) (normalizeText t))).Nodup :=
    h1.filter _
  constructor
  · rw [countKeywordMatches_eq, hfe, List.dedup_eq_self.mpr hnd]
  · rw [countKeywordMatches_eq]
    unfold stepScore
    split_ifs <;> norm_num

/-- C8 witness entry: the `INTEREST_KEYWORDS` entry for `"Inequality"`. -/
def wEntryC8 : KeywordEntry :=
  ⟨"inequality",
   ["income inequality", "wealth inequality", "economic inequality",
    "income distribution", "wealth distribution", "gini coefficient",
    "top 1%", "top income", "redistribution", "intergenerational"],
   1.0⟩

theorem C8_keyword_match_count_witness :
    (countKeywordMatches "Income inequality is rising" wEntryC8).1 = 2 ∧
    (countKeywordMatches "Income inequality is rising" wEntryC8).2 = 0.8 := by
  have h := C8_keyword_match_count "Income inequality is rising" wEntryC8
    (by decide) (by decide)
  constructor
  · rw [h.1]; decide
  · rw [h.2]
    simp only [h.1]
    norm_num +decide [wEntryC8]

/-! ## Lemmas about the interest scorer -/

/-- An interest label contributes a match when it has a dictionary entry
whose keyword matcher finds at least one term. -/
def interestHasMatch (text : String) (label : String) : Bool :=
  match lookupTable INTEREST_KEYWORDS label with
  | none => false
  | some entry => decide ((countKeywordMatches text entry).1 > 0)

theorem interestLoop_matched (text : String) :
    ∀ (l : List String) (i : ℕ),
      (interestLoop text l i).2 = l.filter (interestHasMatch text) := by
  intro l
  induction l with
  | nil => intro i; rfl
  | cons label rest ih =>
    intro i
    simp only [interestLoop, List.filter_cons]
    cases hl : lookupTable INTEREST_KEYWORDS label with
    | none =>
      simp only [interestHasMatch, hl]
      exact ih (i + 1)
    | some entry =>
      simp only [interestHasMatch, hl]
      by_cases hm : (countKeywordMatches text entry).1 > 0
      · simp [hm, ih (i + 1)]
      · simp [hm, ih (i + 1)]

theorem interestLoop_lengths (text : String) :
    ∀ (l : List String) (i : ℕ),
      (interestLoop text l i).1.length = (interestLoop text l i).2.length := by
  intro l
  induction l with
  | nil => intro i; rfl
  | cons label rest ih =>
    intro i
    simp only [interestLoop]
    cases hl : lookupTable INTEREST_KEYWORDS label with
    | none => exact ih (i + 1)
    | some entry =>
      by_cases hm : (countKeywordMatches text entry).1 > 0
      · simp only [hm, if_true, List.length_cons]
        rw [ih (i + 1)]
      · simp only [hm, if_false]
        exact ih (i + 1)

theorem scoreInterestKeywords_matched (profile : UserProfile) (text : String) :
    (scoreInterestKeywords (mkScorer profile) text).2
      = profile.interests.filter (interestHasMatch text) := by
  unfold scoreInterestKeywords
  have hh : (mkScorer profile).hasInterests = !profile.interests.isEmpty := rfl
  have hp : (mkScorer profile).profile = profile := rfl
  rw [hh, hp]
  by_cases he : profile.interests.isEmpty
  · have : profile.interests = [] := List.isEmpty_iff.mp he
    simp [he, this]
  · simp only [he, Bool.not_false, Bool.not_true, Bool.false_eq_true, if_false]
    cases hl : interestLoop text profile.interests 0 with
    | mk scores matched =>
      cases scores with
      | nil =>
        have hlen := interestLoop_lengths text profile.interests 0
        rw [hl] at hlen
        have hm : matched = [] := List.eq_nil_of_length_eq_zero hlen.symm
        have hfe := interestLoop_matched text profile.interests 0
        rw [hl] at hfe
        simp only [hm] at hfe
        simp [← hfe]
      | cons s ss =>
        have hfe := interestLoop_matched text profile.interests 0
        rw [hl] at hfe
        exact hfe

/-- C9: for a fixed paper, permuting the profile's interests list permutes
the `matched_interests` output accordingly, so the set of matched interest
labels is unchanged — position affects only the decay weighting, never
whether an interest matches. -/
theorem C9_interest_order_invariance (profile : UserProfile)
    (interests2 : List String) (paper : Paper)
    (h : profile.interests.Perm interests2) :
    ((scorePaper (mkScorer { profile with interests := interests2 }) paper).matched_interests).Perm
      ((scorePaper (mkScorer profile) paper).matched_interests) ∧
    (∀ l : String,
      l ∈ (scorePaper (mkScorer { profile with interests := interests2 }) paper).matched_interests
        ↔ l ∈ (scorePaper (mkScorer profile) paper).matched_interests) := by
  have e2 : (scorePaper (mkScorer { profile with interests := interests2 }) paper).matched_interests
      = (scoreInterestKeywords (mkScorer { profile with interests := interests2 })
          (paper.title ++ " " ++ paper.title ++ " " ++ paper.abstract)).2 := rfl
  have e1 : (scorePaper (mkScorer profile) paper).matched_interests
      = (scoreInterestKeywords (mkScorer profile)
          (paper.title ++ " " ++ paper.title ++ " " ++ paper.abstract)).2 := rfl
  rw [e1, e2, scoreInterestKeywords_matched, scoreInterestKeywords_matched]
  have hperm : (interests2.filter
        (interestHasMatch (paper.title ++ " " ++ paper.title ++ " " ++ paper.abstract))).Perm
      (profile.interests.filter
        (interestHasMatch (paper.title ++ " " ++ paper.title ++ " " ++ paper.abstract))) :=
    (h.symm.filter _)
  exact ⟨hperm, fun l => hperm.mem_iff⟩

/-- C9 witness profile: two interests in one order. -/
def wProfileC9 : UserProfile :=
  { wProfileC1 with interests := ["Housing", "Inequality"] }

/-- C9 witness paper, matching both interests. -/
def wPaperC9 : Paper :=
  { wPaperC1 with
    title := "Income inequality and housing",
    abstract := "We study rent and redistribution." }

theorem C9_interest_order_invariance_witness :
    ((scorePaper (mkScorer { wProfileC9 with interests := ["Inequality", "Housing"] })
        wPaperC9).matched_interests).Perm
      ((scorePaper (mkScorer wProfileC9) wPaperC9).matched_interests) ∧
    (∀ l : String,
      l ∈ (scorePaper (mkScorer { wProfileC9 with interests := ["Inequality", "Housing"] })
            wPaperC9).matched_interests
        ↔ l ∈ (scorePaper (mkScorer wProfileC9) wPaperC9).matched_interests) :=
  C9_interest_order_invariance wProfileC9 ["Inequality", "Housing"] wPaperC9
    (by decide)

/-! ## The baseline formula (claim C3) -/

/-- Tier score written as the spec states it:
`{1: 1.0, 2: 0.8, 3: 0.6, default: 0.3}`. -/
def specTierScore (tier : ℕ) : ℚ :=
  if tier = 1 then 1.0 else if tier = 2 then 0.8 else if tier = 3 then 0.6 else 0.3

/-- Citation score written as the spec states it:
`≥50→1.0, ≥20→0.85, ≥10→0.7, ≥5→0.55, ≥1→0.4, else 0.3`. -/
def specCiteScore (cites : ℕ) : ℚ :=
  if cites ≥ 50 then 1.0
  else if cites ≥ 20 then 0.85
  else if cites ≥ 10 then 0.7
  else if cites ≥ 5 then 0.55
  else if cites ≥ 1 then 0.4
  else 0.3

theorem tierScore_eq (jt : ℕ) :
    (TIER_SCORES (if jt = 0 then 4 else jt)).getD 0.3 = specTierScore jt := by
  unfold TIER_SCORES specTierScore
  by_cases h0 : jt = 0
  · subst h0; norm_num
  · simp only [h0, if_false]
    split_ifs <;> simp

theorem scoreBaseline_formula (paper : Paper) :
    scoreBaseline paper =
      3.0 + (specTierScore paper.journal_tier * 0.6 +
        specCiteScore paper.cited_by_count * 0.4) * 2.0 := by
  simp only [scoreBaseline, specCiteScore]
  rw [tierScore_eq]

theorem specTierScore_bounds (jt : ℕ) :
    0.3 ≤ specTierScore jt ∧ specTierScore jt ≤ 1 := by
  unfold specTierScore
  split_ifs <;> norm_num

theorem specCiteScore_bounds (c : ℕ) :
    0.3 ≤ specCiteScore c ∧ specCiteScore c ≤ 1 := by
  unfold specCiteScore
  split_ifs <;> norm_num

/-- C3 scenario profile: interests `["Inequality"]`, no methods, no
approach preference. -/
def wProfileC3 : UserProfile :=
  { name := "S", academic_level := "Curious Learner",
    primary_field := "General Interest (Show me everything)",
    interests := ["Inequality"], methods := [], region := "Global / No Preference",
    approach_preference := .no_preference, experience_type := .explorer,
    include_adjacent_fields := false, selected_adjacent_fields := [],
    exploration_level := some 0.5 }

/-- C3 scenario paper: unlisted/untagged journal (tier 4, no field tag),
0 citations, no keyword overlap with `"Inequality"`, no classifier tags. -/
def wPaperC3 : Paper :=
  { id := "px", title := "Deep sea coral reefs", authors := ["B"],
    abstract := "We map benthic habitats.", journal := "Marine Letters",
    journal_tier := 4, journal_field := none, publication_date := "2025-02-02",
    concepts := [], cited_by_count := 0, is_open_access := true }

theorem c3_lookup_inequality :
    lookupTable INTEREST_KEYWORDS "Inequality" = some wEntryC8 := rfl

theorem c3_no_keyword_match :
    (countKeywordMatches
      (wPaperC3.title ++ " " ++ wPaperC3.title ++ " " ++ wPaperC3.abstract)
      wEntryC8).1 = 0 := by decide

theorem c3_interest_keywords :
    scoreInterestKeywords (mkScorer wProfileC3)
      (wPaperC3.title ++ " " ++ wPaperC3.title ++ " " ++ wPaperC3.abstract) = (0.0, []) := by
  have hhi : (mkScorer wProfileC3).hasInterests = true := rfl
  have hpr : (mkScorer wProfileC3).profile = wProfileC3 := rfl
  have hloop : interestLoop
      (wPaperC3.title ++ " " ++ wPaperC3.title ++ " " ++ wPaperC3.abstract)
      ["Inequality"] 0 = ([], []) := by
    simp [interestLoop, c3_lookup_inequality, c3_no_keyword_match]
  simp only [scoreInterestKeywords, hhi, hpr]
  rw [show wProfileC3.interests = ["Inequality"] from rfl, hloop]
  simp

theorem c3_scenario_eval :
    (scorePaper (mkScorer wProfileC3) wPaperC3).total = 3.6 ∧
    (scorePaper (mkScorer wProfileC3) wPaperC3).matched_interests = [] := by
  have hsc : scoreConcepts (mkScorer wProfileC3) wPaperC3 = (0.0, []) := by
    simp [scoreConcepts, wPaperC3]
  have hhm : (mkScorer wProfileC3).hasMethods = false := rfl
  have hhi : (mkScorer wProfileC3).hasInterests = true := rfl
  have hsm : scoreMethods (mkScorer wProfileC3)
      (wPaperC3.title ++ " " ++ wPaperC3.title ++ " " ++ wPaperC3.abstract) = (0.0, []) := by
    simp [scoreMethods, hhm]
  have hfr : scoreFieldRelevance (mkScorer wProfileC3) wPaperC3 = (1.0, false) := by
    simp [scoreFieldRelevance, wPaperC3]
  have hbl : scoreBaseline wPaperC3 = 3.6 := by
    rw [scoreBaseline_formula]
    norm_num [wPaperC3, specTierScore, specCiteScore]
  constructor
  · show round1 (clamp110 _) = _
    rw [hbl]
    simp only [hsc, hsm, hfr, hhi, hhm, c3_interest_keywords]
    norm_num [round1, jsRound, clamp110, max_def, min_def]
  · show (scoreInterestKeywords (mkScorer wProfileC3)
        (wPaperC3.title ++ " " ++ wPaperC3.title ++ " " ++ wPaperC3.abstract)).2 = []
    rw [c3_interest_keywords]

/-- C3 counterexample: for the spec's own scenario — a paper in an
unlisted/untagged journal with 0 citations and no keyword overlap, profile
interests `["Inequality"]` — the baseline is 3.6, not ≈3.24, and the final
score is 3.6, outside the claimed 3.2–3.5 band. -/
theorem C3_baseline_counterexample :
    scoreBaseline wPaperC3 = 3.6 ∧ (3.6 : ℚ) ≠ 3.24 ∧
    (scorePaper (mkScorer wProfileC3) wPaperC3).total = 3.6 ∧
    ¬(3.2 ≤ (scorePaper (mkScorer wProfileC3) wPaperC3).total ∧
        (scorePaper (mkScorer wProfileC3) wPaperC3).total ≤ 3.5) := by
  have hbl : scoreBaseline wPaperC3 = 3.6 := by
    rw [scoreBaseline_formula]
    norm_num [wPaperC3, specTierScore, specCiteScore]
  refine ⟨hbl, by norm_num, c3_scenario_eval.1, ?_⟩
  rw [c3_scenario_eval.1]
  norm_num

/-- C3 (amended): the baseline equals
`3.0 + (tierScore×0.6 + citeScore×0.4)×2.0` with the stated tier and
citation tables, but its attainable range is exactly `[3.6, 5.0]` (both
ends attained), not `[3.0, 5.0]`; in the scenario of an unlisted/untagged
journal, 0 citations and no keyword overlap with interests
`["Inequality"]`, the baseline is 3.6 and the final score is exactly 3.6
with `matched_interests = []`. -/
theorem C3_baseline_amended :
    (∀ paper : Paper, scoreBaseline paper =
        3.0 + (specTierScore paper.journal_tier * 0.6 +
          specCiteScore paper.cited_by_count * 0.4) * 2.0) ∧
    (∀ paper : Paper, 3.6 ≤ scoreBaseline paper ∧ scoreBaseline paper ≤ 5.0) ∧
    scoreBaseline wPaperC3 = 3.6 ∧
    scoreBaseline { wPaperC3 with journal_tier := 1, cited_by_count := 60 } = 5.0 ∧
    (scorePaper (mkScorer wProfileC3) wPaperC3).total = 3.6 ∧
    (scorePaper (mkScorer wProfileC3) wPaperC3).matched_interests = [] := by
  refine ⟨scoreBaseline_formula, ?_, ?_, ?_, c3_scenario_eval.1, c3_scenario_eval.2⟩
  · intro paper
    rw [scoreBaseline_formula]
    have ht := specTierScore_bounds paper.journal_tier
    have hc := specCiteScore_bounds paper.cited_by_count
    constructor <;> nlinarith [ht.1, ht.2, hc.1, hc.2]
  · rw [scoreBaseline_formula]
    norm_num [wPaperC3, specTierScore, specCiteScore]
  · rw [scoreBaseline_formula]
    norm_num [wPaperC3, specTierScore, specCiteScore]

/-- C4 counterexample profile: the user opted into `economics`, a field
that is not one of the designated adjacent fields. -/
def wProfileC4 : UserProfile :=
  { wProfileC1 with
    include_adjacent_fields := true
    selected_adjacent_fields := [JournalField.economics] }

/-- C4 counterexample paper: tagged with the non-adjacent field
`economics`. -/
def wPaperC4 : Paper := { wPaperC1 with journal_field := some JournalField.economics }

/-- C4 counterexample: for a paper in a non-adjacent field (`economics`)
that the user listed among the adjacent-field opt-ins, the code returns
modifier 0.95 with `is_adjacent_field = true`, not the claimed 1.0 with
`is_adjacent_field = false`, because the opt-in branch is checked before
the adjacency test. -/
theorem C4_field_modifier_counterexample :
    isAdjacentField .economics = false ∧
    scoreFieldRelevance (mkScorer wProfileC4) wPaperC4 = (0.95, true) ∧
    scoreFieldRelevance (mkScorer wProfileC4) wPaperC4 ≠ (1.0, false) := by
  have h2 : scoreFieldRelevance (mkScorer wProfileC4) wPaperC4 = (0.95, true) := by
    have hpr : (mkScorer wProfileC4).profile = wProfileC4 := rfl
    simp only [scoreFieldRelevance, hpr]
    rw [show wPaperC4.journal_field = some JournalField.economics from rfl]
    simp [wProfileC4]
    intro h
    exact absurd h (by decide)
  refine ⟨by decide, h2, ?_⟩
  rw [h2]
  intro h
  exact absurd (congrArg Prod.snd h) (by simp)

/-- C4 (amended): the field relevance modifier is 1.0 with
`is_adjacent_field = false` when the paper has no journal field tag; 0.95
with `is_adjacent_field = true` whenever the user opted into the paper's
field (`include_adjacent_fields` set and the field in
`selected_adjacent_fields`), even when that field is not a designated
adjacent field, because this branch takes precedence; otherwise 1.0 with
`false` for non-adjacent fields and 0.7 with `true` for adjacent fields
(psychology, sociology, management) the user did not opt into. -/
theorem scoreFieldRelevance_cases (profile : UserProfile) (paper : Paper) :
    (paper.journal_field = none →
      scoreFieldRelevance (mkScorer profile) paper = (1.0, false)) ∧
    (∀ f : JournalField, paper.journal_field = some f →
      (profile.include_adjacent_fields &&
        profile.selected_adjacent_fields.contains f) = true →
      scoreFieldRelevance (mkScorer profile) paper = (0.95, true)) ∧
    (∀ f : JournalField, paper.journal_field = some f →
      (profile.include_adjacent_fields &&
        profile.selected_adjacent_fields.contains f) = false →
      isAdjacentField f = false →
      scoreFieldRelevance (mkScorer profile) paper = (1.0, false)) ∧
    (∀ f : JournalField, paper.journal_field = some f →
      (profile.include_adjacent_fields &&
        profile.selected_adjacent_fields.contains f) = false →
      isAdjacentField f = true →
      scoreFieldRelevance (mkScorer profile) paper = (0.7, true)) := by
  have hpr : (mkScorer profile).profile = profile := rfl
  refine ⟨?_, ?_, ?_, ?_⟩
  · intro hf
    simp [scoreFieldRelevance, hpr, hf]
  · intro f hf hsel
    simp [scoreFieldRelevance, hpr, hf, hsel]
  · intro f hf hsel hadj
    simp [scoreFieldRelevance, hpr, hf, hsel, hadj]
  · intro f hf hsel hadj
    simp [scoreFieldRelevance, hpr, hf, hsel, hadj]

theorem C4_field_modifier_amended (profile : UserProfile) (paper : Paper) :
    (paper.journal_field = none →
      scoreFieldRelevance (mkScorer profile) paper = (1.0, false)) ∧
    (∀ f : JournalField, paper.journal_field = some f →
      (profile.include_adjacent_fields &&
        profile.selected_adjacent_fields.contains f) = true →
      scoreFieldRelevance (mkScorer profile) paper = (0.95, true)) ∧
    (∀ f : JournalField, paper.journal_field = some f →
      (profile.include_adjacent_fields &&
        profile.selected_adjacent_fields.contains f) = false →
      isAdjacentField f = false →
      scoreFieldRelevance (mkScorer profile) paper = (1.0, false)) ∧
    (∀ f : JournalField, paper.journal_field = some f →
      (profile.include_adjacent_fields &&
        profile.selected_adjacent_fields.contains f) = false →
      isAdjacentField f = true →
      scoreFieldRelevance (mkScorer profile) paper = (0.7, true)) :=
  scoreFieldRelevance_cases profile paper

/-- C4 witness paper: an adjacent-field (psychology) paper for a user with
no opt-ins. -/
def wPaperC4b : Paper := { wPaperC1 with journal_field := some JournalField.psychology }

theorem C4_field_modifier_amended_witness :
    scoreFieldRelevance (mkScorer wProfileC1) wPaperC4b = (0.7, true) :=
  (C4_field_modifier_amended wProfileC1 wPaperC4b).2.2.2 .psychology rfl
    (by decide) (by decide)

/-- C7 profile opting into psychology only (otherwise empty, specialist). -/
def wProfileC7b : UserProfile :=
  { wProfileC1 with
    include_adjacent_fields := true
    selected_adjacent_fields := [JournalField.psychology] }

/-- C7 sociology paper (same tier and citations as the psychology one). -/
def wPaperC7c : Paper := { wPaperC1 with journal_field := some JournalField.sociology }

theorem c7_total_reduces (profile : UserProfile) (paper : Paper)
    (hi : profile.interests = []) (hm : profile.methods = [])
    (hg : isGeneralistProfile profile = false) :
    (scorePaper (mkScorer profile) paper).total
      = round1 (clamp110 (scoreBaseline paper *
          (scoreFieldRelevance (mkScorer profile) paper).1)) := by
  have hhi : (mkScorer profile).hasInterests = false := by
    show (!profile.interests.isEmpty) = false
    rw [hi]; rfl
  have hhm : (mkScorer profile).hasMethods = false := by
    show (!profile.methods.isEmpty) = false
    rw [hm]; rfl
  have hgen : (mkScorer profile).isGeneralist = false := hg
  show round1 (clamp110 _) = _
  congr 1
  congr 1
  rw [hhi, hhm, hgen]
  simp

/-- C7 counterexample: for the non-generalist profile with empty interests
and methods and a tier-4, 0-citation psychology paper, the relevance score
is 2.5 — the one-decimal rounding of `clamp(baseline × fieldModifier) =
3.6 × 0.7 = 2.52`, not that value itself; and with an opt-in for
psychology only, a psychology paper and a sociology paper agree on tier,
citations and the `is_adjacent_field` flag yet get different scores (3.4
vs 2.5), so the score is not a function of tier, citations and adjacency
flag alone. -/
theorem C7_empty_profile_counterexample :
    (scorePaper (mkScorer wProfileC1) wPaperC4b).total = 2.5 ∧
    clamp110 (scoreBaseline wPaperC4b *
      (scoreFieldRelevance (mkScorer wProfileC1) wPaperC4b).1) = 2.52 ∧
    (2.5 : ℚ) ≠ 2.52 ∧
    ((scorePaper (mkScorer wProfileC7b) wPaperC4b).is_adjacent_field = true ∧
      (scorePaper (mkScorer wProfileC7b) wPaperC7c).is_adjacent_field = true ∧
      wPaperC7c.journal_tier = wPaperC4b.journal_tier ∧
      wPaperC7c.cited_by_count = wPaperC4b.cited_by_count ∧
      (scorePaper (mkScorer wProfileC7b) wPaperC4b).total = 3.4 ∧
      (scorePaper (mkScorer wProfileC7b) wPaperC7c).total = 2.5) := by
  have hbl : scoreBaseline wPaperC4b = 3.6 := by
    rw [scoreBaseline_formula]
    norm_num [wPaperC4b, wPaperC1, specTierScore, specCiteScore]
  have hblc : scoreBaseline wPaperC7c = 3.6 := by
    rw [scoreBaseline_formula]
    norm_num [wPaperC7c, wPaperC1, specTierScore, specCiteScore]
  have hfr1 : scoreFieldRelevance (mkScorer wProfileC1) wPaperC4b = (0.7, true) :=
    (scoreFieldRelevance_cases wProfileC1 wPaperC4b).2.2.2 .psychology rfl
      (by decide) (by decide)
  have hfr2 : scoreFieldRelevance (mkScorer wProfileC7b) wPaperC4b = (0.95, true) :=
    (scoreFieldRelevance_cases wProfileC7b wPaperC4b).2.1 .psychology rfl (by decide)
  have hfr3 : scoreFieldRelevance (mkScorer wProfileC7b) wPaperC7c = (0.7, true) :=
    (scoreFieldRelevance_cases wProfileC7b wPaperC7c).2.2.2 .sociology rfl
      (by decide) (by decide)
  refine ⟨?_, ?_, by norm_num, ?_, ?_, rfl, rfl, ?_, ?_⟩
  · rw [c7_total_reduces wProfileC1 wPaperC4b rfl rfl (by decide), hbl, hfr1]
    norm_num [round1, jsRound, clamp110, max_def, min_def]
  · rw [hbl, hfr1]
    norm_num [clamp110, max_def, min_def]
  · show (scoreFieldRelevance (mkScorer wProfileC7b) wPaperC4b).2 = true
    rw [hfr2]
  · show (scoreFieldRelevance (mkScorer wProfileC7b) wPaperC7c).2 = true
    rw [hfr3]
  · rw [c7_total_reduces wProfileC7b wPaperC4b rfl rfl (by decide), hbl, hfr2]
    norm_num [round1, jsRound, clamp110, max_def, min_def]
  · rw [c7_total_reduces wProfileC7b wPaperC7c rfl rfl (by decide), hblc, hfr3]
    norm_num [round1, jsRound, clamp110, max_def, min_def]

/-- C7 (amended): for every profile with empty interests and empty methods
that is not classified a generalist, `topicAddition` and `methodAddition`
vanish, so the relevance score equals
`clamp(baseline × fieldModifier)` rounded to one decimal; and the score is
a deterministic function of journal tier, citation count and journal field
tag (through the field-relevance outcome, which distinguishes opted-in
fields from other adjacent fields, not of the adjacency flag alone). -/
theorem C7_empty_profile_amended (profile : UserProfile) (paper paper2 : Paper)
    (hi : profile.interests = []) (hm : profile.methods = [])
    (hg : isGeneralistProfile profile = false) :
    (scorePaper (mkScorer profile) paper).total
      = round1 (clamp110 (scoreBaseline paper *
          (scoreFieldRelevance (mkScorer profile) paper).1)) ∧
    (paper2.journal_tier = paper.journal_tier →
      paper2.cited_by_count = paper.cited_by_count →
      paper2.journal_field = paper.journal_field →
      (scorePaper (mkScorer profile) paper2).total
        = (scorePaper (mkScorer profile) paper).total) := by
  refine ⟨c7_total_reduces profile paper hi hm hg, ?_⟩
  intro h1 h2 h3
  rw [c7_total_reduces profile paper hi hm hg,
    c7_total_reduces profile paper2 hi hm hg]
  have hb : scoreBaseline paper2 = scoreBaseline paper := by
    simp only [scoreBaseline, h1, h2]
  have hf : scoreFieldRelevance (mkScorer profile) paper2
      = scoreFieldRelevance (mkScorer profile) paper := by
    simp only [scoreFieldRelevance, h3]
  rw [hb, hf]

theorem C7_empty_profile_amended_witness :
    (scorePaper (mkScorer wProfileC1) wPaperC4b).total
      = round1 (clamp110 (scoreBaseline wPaperC4b *
          (scoreFieldRelevance (mkScorer wProfileC1) wPaperC4b).1)) ∧
    (scorePaper (mkScorer wProfileC1) wPaperC4b).total
      = (scorePaper (mkScorer wProfileC1) wPaperC4b).total := by
  have h := C7_empty_profile_amended wProfileC1 wPaperC4b wPaperC4b rfl rfl (by decide)
  exact ⟨h.1, h.2 rfl rfl rfl⟩

/-! ## Claim C5: timeout handling in the batch loop -/

/-- The message of a thrown 30-second timeout in `callGemini`. -/
def timeoutMsg : String :=
  "Gemini request timed out (30s). Try again or use a faster model."

/-- A plain scored paper for the C5 run. -/
def wSPC5 : ScoredPaper :=
  { wPaperC1 with
    relevance_score := 5
    matched_interests := []
    matched_methods := []
    matched_topics := []
    match_explanation := ""
    is_adjacent_field := false
    ai_score := none
    ai_discovery := none
    original_score := none
    ai_explanation := none }

/-- Nine scored papers: two batches (8 + 1). -/
def wPapersC5 : List ScoredPaper :=
  [wSPC5, wSPC5, wSPC5, wSPC5, wSPC5, wSPC5, wSPC5, wSPC5, wSPC5]

/-- A well-formed service response for a one-paper batch. -/
def goodItemsC5 : List (Option JsonItem) :=
  [some ⟨some 0, some 8, none, some 5, some "good"⟩]

/-- Oracle for the C5 run: the first batch call times out, the second
would return a well-formed response. -/
def wOracleC5 : ℕ → Except String (List (Option JsonItem)) :=
  fun i => if i = 0 then Except.error timeoutMsg else Except.ok goodItemsC5

/-- Oracle with the two outcomes swapped: the first batch call returns the
well-formed response, the second times out. -/
def wOracleC5s : ℕ → Except String (List (Option JsonItem)) :=
  fun i => if i = 0 then Except.ok goodItemsC5 else Except.error timeoutMsg

/-- C5: the claim is right and the code is wrong. The 30-second timeout
message contains the substring `"odel"` (inside the word "model"), so the
fatal-error test of the batch loop classifies a timeout like an
auth/quota/permission/model failure and breaks: with nine papers (two
batches) whose first batch call times out, the second batch — whose
response would parse fine, as it does when it is reached first — is never
processed and the rerank falls back to taxonomy-only results. -/
theorem C5_timeout_aborts_batches :
    isFatalMsg timeoutMsg = true ∧
    (aiRerank wPapersC5 wProfileC1 ⟨"api-key-1", none⟩ wOracleC5).aiEnhanced = false ∧
    (aiRerank wPapersC5 wProfileC1 ⟨"api-key-1", none⟩ wOracleC5).aiPapersScored = 0 ∧
    (aiRerank wPapersC5 wProfileC1 ⟨"api-key-1", none⟩ wOracleC5).papers = wPapersC5 ∧
    (aiRerank wPapersC5 wProfileC1 ⟨"api-key-1", none⟩ wOracleC5).error = some timeoutMsg ∧
    (parseScores goodItemsC5 1).length = 1 ∧
    (aiRerank wPapersC5 wProfileC1 ⟨"api-key-1", none⟩ wOracleC5s).aiEnhanced = true := by
  refine ⟨by decide, rfl, rfl, rfl, rfl, by decide, rfl⟩

/-! ## Lemmas relating the two parser models (claim C10) -/

theorem filterMap_id_map_optmap {α β : Type} (g : α → β) (l : List (Option α)) :
    (l.map (Option.map g)).filterMap id = (l.filterMap id).map g := by
  induction l with
  | nil => rfl
  | cons o rest ih => cases o <;> simp [ih]

theorem parseScoresJS_agrees_on_numeric (items : List (Option JsonItem)) (n : ℕ) :
    parseScoresJS (items.map (Option.map jsonItemOfNumeric)) n
      = (parseScores items n).map
          (fun p => ⟨p.index, some p.score, some p.discovery, p.reason⟩) := by
  simp only [parseScoresJS, parseScores]
  rw [filterMap_id_map_optmap, List.filter_map, List.map_map, List.map_map]
  refine congr (congrArg List.map (funext ?_)) (List.filter_congr ?_)
  · intro it
    obtain ⟨i, r, s, d, e⟩ := it
    cases i <;> cases r <;> cases s <;> cases d <;> cases e <;> rfl
  · intro it _
    obtain ⟨i, r, s, d, e⟩ := it
    cases i <;> cases r <;> cases s <;> rfl

/-! ## Claim C10: parsed scores over arbitrary JSON values -/

/-- A response field that is absent (or `null`) or carries a number — the
shapes for which coalescing with `??` can only produce numbers. -/
def numOrAbsent : Option JVal → Bool
  | none => true
  | some (JVal.num _) => true
  | some _ => false

theorem coalesce2_num (a b : Option JVal)
    (ha : numOrAbsent a = true) (hb : numOrAbsent b = true) :
    ∃ q : ℚ, (a.orElse (fun _ => b)).getD (JVal.num 5) = JVal.num q := by
  cases a with
  | some v =>
    cases v with
    | num q => exact ⟨q, rfl⟩
    | str _ => exact absurd ha (by simp [numOrAbsent])
    | bool _ => exact absurd ha (by simp [numOrAbsent])
    | arr => exact absurd ha (by simp [numOrAbsent])
    | obj => exact absurd ha (by simp [numOrAbsent])
  | none =>
    cases b with
    | some v =>
      cases v with
      | num q => exact ⟨q, rfl⟩
      | str _ => exact absurd hb (by simp [numOrAbsent])
      | bool _ => exact absurd hb (by simp [numOrAbsent])
      | arr => exact absurd hb (by simp [numOrAbsent])
      | obj => exact absurd hb (by simp [numOrAbsent])
    | none => exact ⟨5, rfl⟩

theorem coalesce3_num (a b c : Option JVal)
    (ha : numOrAbsent a = true) (hb : numOrAbsent b = true)
    (hc : numOrAbsent c = true) :
    ∃ q : ℚ,
      ((a.orElse (fun _ => b)).orElse (fun _ => c)).getD (JVal.num 5)
        = JVal.num q := by
  cases a with
  | some v =>
    cases v with
    | num q => exact ⟨q, rfl⟩
    | str _ => exact absurd ha (by simp [numOrAbsent])
    | bool _ => exact absurd ha (by simp [numOrAbsent])
    | arr => exact absurd ha (by simp [numOrAbsent])
    | obj => exact absurd ha (by simp [numOrAbsent])
  | none =>
    show ∃ q, (b.orElse (fun _ => c)).getD (JVal.num 5) = JVal.num q
    exact coalesce2_num b c hb hc

/-- C10 counterexample item: the legacy-format shape the source's own
reason fallback anticipates — a numeric `s` alongside a string `r`. -/
def wItemCX : JsonItemJS :=
  ⟨some (JVal.num 0), some (JVal.str "good match"), some (JVal.num 7),
    none, none⟩

/-- C10 counterexample: the entry `{i: 0, s: 7, r: "good match"}` passes
the filter through its numeric `s`, but `r ?? s` keeps the non-nullish
string `r`, whose coercion is NaN: the parsed score attached to paper 0 is
NaN — not a rational clamped into `[1, 10]` — refuting the claim. -/
theorem C10_nan_score_counterexample :
    parseScoresJS [some wItemCX] 8
      = [⟨0, none, none, "good match"⟩] ∧
    jsItemKept 8 wItemCX = true ∧
    (¬ ∃ q : ℚ,
      (⟨0, none, none, "good match"⟩ : ParsedScoreJS).score = some q ∧
        1 ≤ q ∧ q ≤ 10) := by
  have hnan : jsStringToNumber "good match" = none := by decide
  refine ⟨?_, ?_, ?_⟩
  · simp only [parseScoresJS, jsItemKept, jsItemParse, wItemCX, List.filterMap,
      List.filter, List.map, isNumV, nanClampRound, JVal.toNumber, hnan,
      Option.orElse, Option.getD]
    norm_num
  · simp only [jsItemKept, wItemCX, isNumV]
    norm_num
  · rintro ⟨q, hq, _⟩
    exact Option.noConfusion hq

/-- C10 (corrected): for a response entry all of whose present `r`, `s`,
`d` fields are numeric — every entry of the documented new `{i,r,d,e}`
format and of the numeric legacy `{i,s}` format — the parsed score and
discovery are rationals clamped into `[1, 10]` and rounded to one decimal,
and the paper index lies in `[0, batch size)`, so no score is attached to
a paper outside the batch; without that proviso a kept entry can carry a
NaN score (see the counterexample). -/
theorem C10_parse_scores_amended (items : List (Option JsonItemJS)) (n : ℕ)
    (p : ParsedScoreJS)
    (hnum : ∀ j : JsonItemJS, some j ∈ items →
      numOrAbsent j.r = true ∧ numOrAbsent j.s = true ∧ numOrAbsent j.d = true)
    (hp : p ∈ parseScoresJS items n) :
    (∃ q : ℚ, p.score = some q ∧ 1 ≤ q ∧ q ≤ 10 ∧ OneDecimal q) ∧
    (∃ q : ℚ, p.discovery = some q ∧ 1 ≤ q ∧ q ≤ 10 ∧ OneDecimal q) ∧
    (0 ≤ p.index ∧ p.index < (n : ℚ)) := by
  simp only [parseScoresJS, List.mem_map, List.mem_filter, List.mem_filterMap,
    id] at hp
  obtain ⟨it, ⟨⟨o, ho, hoi⟩, hkept⟩, hfe⟩ := hp
  subst hoi
  obtain ⟨hr, hs, hd⟩ := hnum it ho
  cases hi : it.i with
  | none => rw [jsItemKept, hi] at hkept; simp at hkept
  | some v =>
    cases v with
    | str _ => rw [jsItemKept, hi] at hkept; simp at hkept
    | bool _ => rw [jsItemKept, hi] at hkept; simp at hkept
    | arr => rw [jsItemKept, hi] at hkept; simp at hkept
    | obj => rw [jsItemKept, hi] at hkept; simp at hkept
    | num iv =>
      rw [jsItemKept, hi] at hkept
      simp only [Bool.and_eq_true] at hkept
      have hiv : 0 ≤ iv ∧ iv < (n : ℚ) := by
        rcases hkept with ⟨_, hcond⟩
        by_contra hniv
        rw [if_neg hniv] at hcond
        exact Bool.false_ne_true hcond
      obtain ⟨qr, hqr⟩ := coalesce2_num it.r it.s hr hs
      obtain ⟨qd, hqd⟩ := coalesce3_num it.d it.r it.s hd hr hs
      subst hfe
      have hscore : (jsItemParse it).score = some (clamp110 (round1 qr)) := by
        simp only [jsItemParse]
        rw [hqr]
        simp [nanClampRound, JVal.toNumber]
      have hdisc : (jsItemParse it).discovery = some (clamp110 (round1 qd)) := by
        simp only [jsItemParse]
        rw [hqd]
        simp [nanClampRound, JVal.toNumber]
      have hidx : (jsItemParse it).index = iv := by
        simp only [jsItemParse]
        rw [hi]
      refine ⟨⟨clamp110 (round1 qr), hscore, ?_, ?_, ?_⟩,
        ⟨clamp110 (round1 qd), hdisc, ?_, ?_, ?_⟩, ?_, ?_⟩
      · exact (clamp110_bounds _).1
      · exact (clamp110_bounds _).2
      · exact clamp_round1_oneDecimal _
      · exact (clamp110_bounds _).1
      · exact (clamp110_bounds _).2
      · exact clamp_round1_oneDecimal _
      · rw [hidx]
        exact hiv.1
      · rw [hidx]
        exact hiv.2

/-- C10 witness items in the JSON-value model: one valid numeric entry
with an out-of-scale score, one negative-index entry, one non-object
entry. -/
def wItemsC10JS : List (Option JsonItemJS) :=
  [some ⟨some (JVal.num 0), some (JVal.num 37), none, none, some (JVal.str "great")⟩,
   some ⟨some (JVal.num (-1)), some (JVal.num 5), none, none, none⟩,
   none]

theorem C10_parse_scores_amended_witness :
    (∃ q : ℚ, (⟨0, some 10, some 10, "great"⟩ : ParsedScoreJS).score = some q ∧
      1 ≤ q ∧ q ≤ 10 ∧ OneDecimal q) ∧
    (∃ q : ℚ, (⟨0, some 10, some 10, "great"⟩ : ParsedScoreJS).discovery = some q ∧
      1 ≤ q ∧ q ≤ 10 ∧ OneDecimal q) ∧
    (0 ≤ (⟨0, some 10, some 10, "great"⟩ : ParsedScoreJS).index ∧
      (⟨0, some 10, some 10, "great"⟩ : ParsedScoreJS).index < ((8 : ℕ) : ℚ)) :=
  C10_parse_scores_amended wItemsC10JS 8 ⟨0, some 10, some 10, "great"⟩
    (by
      intro j hj
      simp only [wItemsC10JS, List.mem_cons, List.not_mem_nil, or_false] at hj
      rcases hj with h | h | h
      · injection h with h
        subst h
        exact ⟨rfl, rfl, rfl⟩
      · injection h with h
        subst h
        exact ⟨rfl, rfl, rfl⟩
      · exact Option.noConfusion h)
    (by
      simp only [wItemsC10JS, parseScoresJS, jsItemKept, jsItemParse,
        List.filterMap, List.filter, List.map, isNumV, nanClampRound,
        JVal.toNumber, Option.orElse, Option.getD]
      norm_num [clamp110, round1, jsRound, max_def, min_def, Int.floor_eq_iff])

end Econvery
